import Mathlib

/-!
Verification of the hybrid prediction engine (HybridPrediction.cpp).

The development shallowly embeds the data model and the operations of the
engine over exact real arithmetic: C++ float expressions become the same
expressions over the reals, std::sqrt / std::exp / std::acos become
Real.sqrt / Real.exp / Real.arccos, and the int cast of a float becomes
truncation toward zero on the reals.  The fixed grid dimension GRID_SIZE of
BehaviorPDF is declared in a header that is not part of the sources, so the
grid is embedded parametrically in its size n; every theorem below holds for
each admissible n.  Stateful methods (the per-tick PDF cache mutated through
const methods) are embedded as explicit state passing.
-/

namespace HybridPred

noncomputable section

/-- 3D vector of the SDK math library (float components embedded as reals). -/
structure Vec3 where
  x : ℝ
  y : ℝ
  z : ℝ

def Vec3.add (a b : Vec3) : Vec3 := ⟨a.x + b.x, a.y + b.y, a.z + b.z⟩

def Vec3.sub (a b : Vec3) : Vec3 := ⟨a.x - b.x, a.y - b.y, a.z - b.z⟩

def Vec3.smul (v : Vec3) (c : ℝ) : Vec3 := ⟨v.x * c, v.y * c, v.z * c⟩

def Vec3.sdiv (v : Vec3) (c : ℝ) : Vec3 := ⟨v.x / c, v.y / c, v.z / c⟩

instance : Add Vec3 := ⟨Vec3.add⟩

instance : Sub Vec3 := ⟨Vec3.sub⟩

instance : HMul Vec3 ℝ Vec3 := ⟨Vec3.smul⟩

instance : HDiv Vec3 ℝ Vec3 := ⟨Vec3.sdiv⟩

@[simp] theorem Vec3.add_def (a b : Vec3) : a + b = ⟨a.x + b.x, a.y + b.y, a.z + b.z⟩ := rfl

@[simp] theorem Vec3.sub_def (a b : Vec3) : a - b = ⟨a.x - b.x, a.y - b.y, a.z - b.z⟩ := rfl

@[simp] theorem Vec3.smul_def (v : Vec3) (c : ℝ) : v * c = ⟨v.x * c, v.y * c, v.z * c⟩ := rfl

@[simp] theorem Vec3.sdiv_def (v : Vec3) (c : ℝ) : v / c = ⟨v.x / c, v.y / c, v.z / c⟩ := rfl

/-- Euclidean length of an SDK vector (math::vector3::magnitude). -/
def Vec3.magnitude (v : Vec3) : ℝ := Real.sqrt (v.x * v.x + v.y * v.y + v.z * v.z)

/-- SDK unit vector (math::vector3::normalized): the vector divided by its length. -/
def Vec3.normalized (v : Vec3) : Vec3 := v / v.magnitude

/-- Dot product (math::vector3::dot). -/
def Vec3.dot (a b : Vec3) : ℝ := a.x * b.x + a.y * b.y + a.z * b.z

theorem Vec3.magnitude_nonneg (v : Vec3) : 0 ≤ v.magnitude := Real.sqrt_nonneg _

theorem Vec3.magnitude_sub_comm (a b : Vec3) : (a - b).magnitude = (b - a).magnitude := by
  simp only [Vec3.magnitude, Vec3.sub_def]
  ring_nf

/-- EPSILON guard constant of the engine (1e-6f). -/
def EPSILON : ℝ := 1 / 1000000

/-- MIN_RADIUS guard of circle_circle_intersection_area (1e-6f). -/
def MIN_RADIUS : ℝ := 1 / 1000000

/-- The PI constant used by the engine.  Its definition lives in the header that
is missing from the sources; it is modelled as the exact real number pi.  Every
claim below is insensitive to the exact positive value. -/
def PI : ℝ := Real.pi

/-- FLT_MAX, the largest finite single-precision float, used as the sentinel
threshold for instant projectile speed. -/
def FLT_MAX : ℝ := (2 - (2 : ℝ) ^ (-23 : ℤ)) * 2 ^ (127 : ℕ)

/-- Truncation toward zero: the semantics of the C++ cast from float to int. -/
def cppInt (x : ℝ) : ℤ := if 0 ≤ x then ⌊x⌋ else ⌈x⌉

/-- The reachable-region disk (ReachableRegion).  The 32 discretized boundary
points of the source are omitted: no claim and no embedded operation reads them. -/
structure ReachableRegion where
  center : Vec3
  max_radius : ℝ
  area : ℝ

/-- PhysicsPredictor::compute_reachable_region: two-phase kinematics, giving a
disk of radius max_distance around the current position. -/
def compute_reachable_region (current_pos current_velocity : Vec3)
    (prediction_time move_speed _turn_rate acceleration : ℝ) : ReachableRegion :=
  if prediction_time < EPSILON then
    { center := current_pos, max_radius := 0, area := 0 }
  else
    let current_speed := current_velocity.magnitude
    let speed_diff := move_speed - current_speed
    let max_distance :=
      if speed_diff > 0 ∧ acceleration > 0 then
        let accel_time := min (speed_diff / acceleration) prediction_time
        let accel_distance := current_speed * accel_time +
          (1 / 2) * acceleration * accel_time * accel_time
        let max_speed_time := prediction_time - accel_time
        accel_distance + move_speed * max_speed_time
      else
        move_speed * prediction_time
    { center := current_pos, max_radius := max_distance,
      area := PI * max_distance * max_distance }

/-- PhysicsPredictor::circle_circle_intersection_area: closed-form lens area
with the numeric guards of the source. -/
def circle_circle_intersection_area (c1 : Vec3) (r1 : ℝ) (c2 : Vec3) (r2 : ℝ) : ℝ :=
  if r1 < MIN_RADIUS ∨ r2 < MIN_RADIUS then 0
  else
    let d := (c2 - c1).magnitude
    if d ≥ r1 + r2 then 0
    else if d ≤ |r1 - r2| then PI * min r1 r2 * min r1 r2
    else if d < MIN_RADIUS then PI * min r1 r2 * min r1 r2
    else
      let d2 := d * d
      let r1sq := r1 * r1
      let r2sq := r2 * r2
      let alpha := Real.arccos (min 1 (max (-1) ((d2 + r1sq - r2sq) / (2 * d * r1))))
      let beta := Real.arccos (min 1 (max (-1) ((d2 + r2sq - r1sq) / (2 * d * r2))))
      let area := r1sq * alpha + r2sq * beta
      let sqrt_term := (r1 + r2 - d) * (r1 - r2 + d) * (-r1 + r2 + d) * (r1 + r2 + d)
      if sqrt_term > 0 then area - (1 / 2) * Real.sqrt sqrt_term else area

/-- PhysicsPredictor::compute_physics_hit_probability: intersection area of the
effect footprint with the reachable disk, divided by the disk area, clamped. -/
def compute_physics_hit_probability (cast_position : Vec3) (projectile_radius : ℝ)
    (reachable_region : ReachableRegion) : ℝ :=
  if reachable_region.area < EPSILON then 0
  else
    let intersection_area := circle_circle_intersection_area
      cast_position projectile_radius reachable_region.center reachable_region.max_radius
    min 1 (intersection_area / reachable_region.area)

/-- PhysicsPredictor::compute_arrival_time: delay plus distance over speed, or
just the delay for the instant-speed sentinel. -/
def compute_arrival_time (source_pos target_pos : Vec3)
    (projectile_speed cast_delay : ℝ) : ℝ :=
  let distance := (target_pos - source_pos).magnitude
  if projectile_speed < EPSILON ∨ projectile_speed ≥ FLT_MAX / 2 then cast_delay
  else cast_delay + distance / projectile_speed

/-- Fixed-size spatial probability grid over a world-space window
(BehaviorPDF).  The grid dimension GRID_SIZE is declared in the missing
header, so the structure is parametric in the size n. -/
structure BehaviorPDF (n : ℕ) where
  origin : Vec3
  cell_size : ℝ
  grid : Fin n → Fin n → ℝ
  total_probability : ℝ

/-- Default-initialized BehaviorPDF (all cells zero, zero total probability). -/
def BehaviorPDF.default (n : ℕ) : BehaviorPDF n :=
  { origin := ⟨0, 0, 0⟩, cell_size := 0, grid := fun _ _ => 0, total_probability := 0 }

/-- Gaussian kernel spread of BehaviorPDF::add_weighted_sample: sigma = 1.5
cells, kernel radius 2 cells.  The contribution a cell at integer offset
(i, j) from the sample cell receives. -/
def gaussKernel (i j : ℤ) : ℝ :=
  if |i| ≤ 2 ∧ |j| ≤ 2 then
    Real.exp (-(((i * i + j * j : ℤ) : ℝ)) / (2 * (3 / 2) * (3 / 2)))
  else 0

/-- The grid cell a world position falls into, as in the coordinate
conversion of add_weighted_sample: int cast of dx / cell_size + GRID_SIZE / 2. -/
def BehaviorPDF.cellOf {n : ℕ} (pdf : BehaviorPDF n) (pos : Vec3) : ℤ × ℤ :=
  (cppInt ((pos.x - pdf.origin.x) / pdf.cell_size + ((n / 2 : ℕ) : ℝ)),
   cppInt ((pos.z - pdf.origin.z) / pdf.cell_size + ((n / 2 : ℕ) : ℝ)))

/-- BehaviorPDF::add_weighted_sample: spreads weight over the cells within two
cells of the cell containing the sample position, with the Gaussian kernel.
The source loops over kernel offsets and skips out-of-bounds cells; the
functional form below assigns each in-bounds cell its unique contribution. -/
def BehaviorPDF.add_weighted_sample {n : ℕ} (pdf : BehaviorPDF n)
    (pos : Vec3) (weight : ℝ) : BehaviorPDF n :=
  let c := pdf.cellOf pos
  { pdf with grid := fun gx gz =>
      pdf.grid gx gz + weight * gaussKernel ((gx : ℤ) - c.1) ((gz : ℤ) - c.2) }

/-- BehaviorPDF::normalize: sum the cells; when the sum is above EPSILON,
rescale all cells so they sum to one; the total_probability field always
receives the post-call sum. -/
def BehaviorPDF.normalize {n : ℕ} (pdf : BehaviorPDF n) : BehaviorPDF n :=
  let total := ∑ i : Fin n, ∑ j : Fin n, pdf.grid i j
  if total > EPSILON then
    { pdf with grid := fun i j => pdf.grid i j * (1 / total), total_probability := 1 }
  else
    { pdf with total_probability := total }

/-- Sum of all grid cells of a BehaviorPDF. -/
def BehaviorPDF.gridSum {n : ℕ} (pdf : BehaviorPDF n) : ℝ :=
  ∑ i : Fin n, ∑ j : Fin n, pdf.grid i j

/-- Probability mass in the cells within Chebyshev distance k (in cells) of
the cell containing the given world position. -/
def BehaviorPDF.massWithin {n : ℕ} (pdf : BehaviorPDF n) (pos : Vec3) (k : ℤ) : ℝ :=
  let c := pdf.cellOf pos
  ∑ i : Fin n, ∑ j : Fin n,
    if |(i : ℤ) - c.1| ≤ k ∧ |(j : ℤ) - c.2| ≤ k then pdf.grid i j else 0

@[simp] theorem BehaviorPDF.origin_add_weighted_sample {n : ℕ} (pdf : BehaviorPDF n)
    (pos : Vec3) (w : ℝ) : (pdf.add_weighted_sample pos w).origin = pdf.origin := rfl

@[simp] theorem BehaviorPDF.cell_size_add_weighted_sample {n : ℕ} (pdf : BehaviorPDF n)
    (pos : Vec3) (w : ℝ) : (pdf.add_weighted_sample pos w).cell_size = pdf.cell_size := rfl

@[simp] theorem BehaviorPDF.origin_normalize {n : ℕ} (pdf : BehaviorPDF n) :
    pdf.normalize.origin = pdf.origin := by
  unfold BehaviorPDF.normalize
  dsimp only
  split <;> rfl

@[simp] theorem BehaviorPDF.cell_size_normalize {n : ℕ} (pdf : BehaviorPDF n) :
    pdf.normalize.cell_size = pdf.cell_size := by
  unfold BehaviorPDF.normalize
  dsimp only
  split <;> rfl

/-- One movement sample of the per-target history (MovementSnapshot). -/
structure MovementSnapshot where
  position : Vec3
  timestamp : ℝ
  velocity : Vec3
  is_auto_attacking : Bool
  is_casting : Bool
  is_dashing : Bool
  is_cced : Bool
  hp_percent : ℝ

/-- The learned dodge pattern aggregate (DodgePattern); only the fields read
by build_behavior_pdf are embedded. -/
structure DodgePattern where
  left_dodge_frequency : ℝ
  right_dodge_frequency : ℝ
  reaction_delay : ℝ
  juke_interval_mean : ℝ
  juke_interval_variance : ℝ
  has_pattern : Bool
  pattern_confidence : ℝ
  predicted_next_direction : Vec3

/-- The TargetBehaviorTracker state read and written by build_behavior_pdf and
the stationary-boost queries.  The movement history is kept in deque order:
the most recent sample is the last element. -/
structure TrackerState (n : ℕ) where
  movement_history : List MovementSnapshot
  dodge_pattern : DodgePattern
  direction_change_angles : List ℝ
  cached_pdf : BehaviorPDF n
  cached_prediction_time : ℝ
  cached_move_speed : ℝ
  cached_timestamp : ℝ
  is_currently_stationary : Bool
  stationary_start_time : ℝ

/-- TargetBehaviorTracker::is_animation_locked: the latest sample shows
attacking, casting, or hard crowd control. -/
def TrackerState.is_animation_locked {n : ℕ} (st : TrackerState n) : Bool :=
  match st.movement_history.getLast? with
  | none => false
  | some latest => latest.is_auto_attacking || latest.is_casting || latest.is_cced

/-- TargetBehaviorTracker::get_stationary_duration. -/
def TrackerState.get_stationary_duration {n : ℕ} (st : TrackerState n)
    (current_time : ℝ) : ℝ :=
  if ¬ st.is_currently_stationary then 0
  else current_time - st.stationary_start_time

/-- TargetBehaviorTracker::get_stationary_hitchance_boost: zero below 0.5s of
stationary time, linear from 0.5 to 0.75 over the next half second, then 0.75. -/
def TrackerState.get_stationary_hitchance_boost {n : ℕ} (st : TrackerState n)
    (current_time : ℝ) : ℝ :=
  if ¬ st.is_currently_stationary then 0
  else
    let duration := st.get_stationary_duration current_time
    if duration < 1 / 2 then 0
    else if duration ≥ 1 then 3 / 4
    else
      let t := (duration - 1 / 2) / (1 / 2)
      1 / 2 + t * (1 / 4)

/-- Modelled from the spec: get_adaptive_decay_rate, declared in the missing
header, adapts the recency decay to observed mobility ("decay_rate adapted to
observed mobility").  The exact coefficients are unknown; every claim below is
insensitive to them because they only weight samples past the most recent one. -/
def get_adaptive_decay_rate (velocity_magnitude : ℝ) : ℝ :=
  if velocity_magnitude > 250 then 17 / 20 else 9 / 10

/-- The grid cell size chosen by build_behavior_pdf: the grid extent covers
move_speed * prediction_time * 1.2, with a 400-unit floor. -/
def pdfCellSize (n : ℕ) (prediction_time move_speed : ℝ) : ℝ :=
  let max_move_distance := move_speed * prediction_time * (12 / 10)
  let required_grid_radius := max 400 max_move_distance
  required_grid_radius * 2 / (n : ℝ)

/-- The animation-locked arm of build_behavior_pdf: a single unit-weight
sample at the current position, normalized. -/
def buildLockedPdf (n : ℕ) (latest : MovementSnapshot)
    (prediction_time move_speed : ℝ) : BehaviorPDF n :=
  let pdf0 : BehaviorPDF n := { BehaviorPDF.default n with
    cell_size := pdfCellSize n prediction_time move_speed, origin := latest.position }
  (pdf0.add_weighted_sample latest.position 1).normalize

/-- The recency-ordered sample list of build_behavior_pdf: up to 30 samples,
most recent first, paired with their index i (the weight exponent). -/
def pdfRecent (history : List MovementSnapshot) : List (ℕ × MovementSnapshot) :=
  (history.reverse.take 30).enum

/-- First pass accumulator: the sum of the decay weights decay_rate ^ i. -/
def pdfTotalWeight (decay_rate : ℝ) (recent : List (ℕ × MovementSnapshot)) : ℝ :=
  recent.foldl (fun a p => a + decay_rate ^ p.1) 0

/-- First pass accumulator: the decay-weighted sum of the per-sample linear
extrapolations position + velocity * prediction_time. -/
def pdfWeightedSum (decay_rate prediction_time : ℝ)
    (recent : List (ℕ × MovementSnapshot)) : Vec3 :=
  recent.foldl
    (fun a p => a + (p.2.position + p.2.velocity * prediction_time) * decay_rate ^ p.1)
    ⟨0, 0, 0⟩

/-- Second pass of build_behavior_pdf: re-insert every extrapolated sample
position with its recency weight through the Gaussian kernel. -/
def pdfSecondPass {n : ℕ} (decay_rate prediction_time : ℝ)
    (recent : List (ℕ × MovementSnapshot)) (pdf : BehaviorPDF n) : BehaviorPDF n :=
  recent.foldl
    (fun pdf p => pdf.add_weighted_sample
      (p.2.position + p.2.velocity * prediction_time) (decay_rate ^ p.1))
    pdf

/-- Dodge-hypothesis injection of build_behavior_pdf, gated on reaction delay
and actual movement: lateral dodge samples weighted by observed left/right
frequency and the juke-cadence Gaussian, plus the heavily upweighted
pattern-predicted sample when a confident pattern exists. -/
def pdfDodgePhase {n : ℕ} (dodge : DodgePattern) (direction_change_angles : List ℝ)
    (latest : MovementSnapshot) (prediction_time : ℝ) (pdf2 : BehaviorPDF n) :
    BehaviorPDF n :=
  let reaction_delay_seconds := dodge.reaction_delay / 1000
  let can_react := prediction_time ≥ reaction_delay_seconds
  if latest.velocity.magnitude > 10 ∧ can_react then
    let velocity_dir := latest.velocity.normalized
    let perpendicular : Vec3 := ⟨-velocity_dir.z, 0, velocity_dir.x⟩
    let forward := latest.velocity * prediction_time
    let lateral_factor :=
      if direction_change_angles.length ≥ 3 then
        let total_lateral := direction_change_angles.foldl
          (fun a angle => a + |Real.sin angle|) 0
        min (9 / 10) (max (1 / 5) (total_lateral / (direction_change_angles.length : ℝ)))
      else 1 / 2
    let dodge_distance := latest.velocity.magnitude * prediction_time * lateral_factor
    let side := perpendicular * dodge_distance
    let juke_cadence_weight :=
      if dodge.juke_interval_variance > EPSILON then
        let sigma := Real.sqrt dodge.juke_interval_variance
        let time_diff := prediction_time - dodge.juke_interval_mean
        min 1 (max (3 / 10)
          (Real.exp (-(1 / 2) * (time_diff * time_diff) / (sigma * sigma))))
      else 1
    let pdfA :=
      if dodge.left_dodge_frequency > 3 / 10 then
        pdf2.add_weighted_sample (latest.position + forward + side)
          (dodge.left_dodge_frequency * (1 / 2) * juke_cadence_weight)
      else pdf2
    let pdfB :=
      if dodge.right_dodge_frequency > 3 / 10 then
        pdfA.add_weighted_sample (latest.position + forward - side)
          (dodge.right_dodge_frequency * (1 / 2) * juke_cadence_weight)
      else pdfA
    if dodge.has_pattern ∧ dodge.pattern_confidence > 3 / 5 then
      let pattern_distance := latest.velocity.magnitude * prediction_time
      let pattern_predicted_pos := latest.position + latest.velocity * prediction_time +
        dodge.predicted_next_direction * (pattern_distance * lateral_factor)
      pdfB.add_weighted_sample pattern_predicted_pos (dodge.pattern_confidence * (5 / 2))
    else pdfB
  else pdf2

/-- The general arm of build_behavior_pdf: recency-weighted extrapolation
centroid, Gaussian re-insertion of every extrapolated sample, lateral dodge
hypotheses and the pattern-predicted sample, then normalization.  It reads
only the history, the dodge pattern and the learned direction-change angles,
never the cache fields. -/
def buildMainPdf (n : ℕ) (history : List MovementSnapshot)
    (dodge : DodgePattern) (direction_change_angles : List ℝ)
    (latest : MovementSnapshot) (prediction_time move_speed : ℝ) : BehaviorPDF n :=
  let pdf0 : BehaviorPDF n := { BehaviorPDF.default n with
    cell_size := pdfCellSize n prediction_time move_speed }
  let decay_rate := get_adaptive_decay_rate latest.velocity.magnitude
  let recent := pdfRecent history
  -- First pass: weighted centroid of per-sample linear extrapolations.
  let total_weight := pdfTotalWeight decay_rate recent
  let weighted_sum := pdfWeightedSum decay_rate prediction_time recent
  let predicted_center :=
    if total_weight > EPSILON then weighted_sum / total_weight
    else latest.position + latest.velocity * prediction_time
  let pdf1 : BehaviorPDF n := { pdf0 with origin := predicted_center }
  -- Second pass: re-insert every extrapolated sample with its recency weight.
  let pdf2 := pdfSecondPass decay_rate prediction_time recent pdf1
  -- Dodge-hypothesis injection, gated on reaction delay and actual movement.
  let pdf3 := pdfDodgePhase dodge direction_change_angles latest prediction_time pdf2
  pdf3.normalize

/-- TargetBehaviorTracker::build_behavior_pdf with the per-tick cache: returns
the PDF together with the successor tracker state (the method is const in the
source but mutates the mutable cache fields). -/
def TrackerState.build_behavior_pdf {n : ℕ} (st : TrackerState n)
    (prediction_time move_speed current_time : ℝ) : BehaviorPDF n × TrackerState n :=
  let same_frame := |current_time - st.cached_timestamp| < EPSILON
  let similar_pred_time := |prediction_time - st.cached_prediction_time| < 1 / 20
  let similar_move_speed := |move_speed - st.cached_move_speed| < 20
  if same_frame ∧ similar_pred_time ∧ similar_move_speed ∧
      st.cached_pdf.total_probability > EPSILON then
    (st.cached_pdf, st)
  else
    match st.movement_history.getLast? with
    | none => (BehaviorPDF.default n, st)
    | some latest =>
      if latest.is_cced ∨ latest.is_casting then
        (buildLockedPdf n latest prediction_time move_speed, st)
      else
        let pdf := buildMainPdf n st.movement_history st.dodge_pattern
          st.direction_change_angles latest prediction_time move_speed
        let st' := { st with
          cached_pdf := pdf
          cached_prediction_time := prediction_time
          cached_move_speed := move_speed
          cached_timestamp := current_time }
        (pdf, st')

/-- Per (target, slot) rolling hit-chance window (OpportunityWindow).  The
history is in deque order, oldest sample first; each entry is a
(timestamp, hit_chance) pair. -/
structure OpportunityWindow where
  history : List (ℝ × ℝ)
  peak_hit_chance : ℝ
  peak_timestamp : ℝ
  window_start_time : ℝ
  last_hit_chance : ℝ

/-- OpportunityWindow::is_peak_opportunity: the patience veto, the history-size
floor, the 90-percent quality floor, the 1s trailing-average peak test, then
the sustained three-sample decline test. -/
def OpportunityWindow.is_peak_opportunity (w : OpportunityWindow)
    (current_time hit_chance adaptive_threshold elapsed_time patience_window : ℝ) : Bool :=
  if elapsed_time < patience_window then false
  else if w.history.length < 5 then false
  else if hit_chance < adaptive_threshold * (9 / 10) then false
  else
    let recent := w.history.reverse.takeWhile (fun s => decide (current_time - s.1 < 1))
    if recent.length < 3 then false
    else
      let recent_avg := recent.foldl (fun a s => a + s.2) 0 / (recent.length : ℝ)
      if hit_chance < recent_avg * (105 / 100) then false
      else
        let len := w.history.length
        let sample_4_ago := (w.history.getD (len - 4) (0, 0)).2
        let sample_3_ago := (w.history.getD (len - 3) (0, 0)).2
        let sample_2_ago := (w.history.getD (len - 2) (0, 0)).2
        let sample_1_ago := (w.history.getD (len - 1) (0, 0)).2
        if len ≥ 4 ∧ sample_1_ago < sample_2_ago ∧ sample_2_ago < sample_3_ago ∧
            sample_3_ago < sample_4_ago then true
        else false

/-- OpportunityWindow::get_adaptive_threshold: no decay through 3s, linear
decay to 70 percent of the base by 8s, floored there. -/
def OpportunityWindow.get_adaptive_threshold (_w : OpportunityWindow)
    (base_threshold elapsed_time : ℝ) : ℝ :=
  if elapsed_time < 3 then base_threshold
  else if elapsed_time < 8 then
    base_threshold * (1 - (elapsed_time - 3) / 5 * (3 / 10))
  else base_threshold * (7 / 10)

/-- World-space x coordinate of the center of grid column x, as computed by
the behavior evaluators. -/
def cellCenterX {n : ℕ} (pdf : BehaviorPDF n) (x : Fin n) : ℝ :=
  pdf.origin.x + (((x : ℕ) : ℝ) - ((n / 2 : ℕ) : ℝ) + 1 / 2) * pdf.cell_size

/-- World-space z coordinate of the center of grid row z. -/
def cellCenterZ {n : ℕ} (pdf : BehaviorPDF n) (z : Fin n) : ℝ :=
  pdf.origin.z + (((z : ℕ) : ℝ) - ((n / 2 : ℕ) : ℝ) + 1 / 2) * pdf.cell_size

/-- BehaviorPredictor::compute_behavior_hit_probability: neutral 1.0 for an
empty / unnormalized PDF, otherwise the grid mass of the cells whose centers
fall inside the hit circle, clamped to the unit interval. -/
def compute_behavior_hit_probability {n : ℕ} (cast_position : Vec3)
    (projectile_radius : ℝ) (pdf : BehaviorPDF n) : ℝ :=
  if pdf.total_probability < EPSILON then 1
  else
    let radius_sq := projectile_radius * projectile_radius
    let prob := ∑ x : Fin n, ∑ z : Fin n,
      let dx := cellCenterX pdf x - cast_position.x
      let dz := cellCenterZ pdf z - cast_position.z
      if dx * dx + dz * dz ≤ radius_sq then pdf.grid x z else 0
    min 1 (max 0 prob)

/-- HybridFusionEngine::point_in_capsule: distance from the point to the
clamped segment projection, compared to the capsule radius (XZ plane). -/
def point_in_capsule (point capsule_start capsule_end : Vec3)
    (capsule_radius : ℝ) : Bool :=
  let segment := capsule_end - capsule_start
  let to_point := point - capsule_start
  let segment_length_sq := segment.x * segment.x + segment.z * segment.z
  if segment_length_sq < EPSILON then
    let dist_sq := to_point.x * to_point.x + to_point.z * to_point.z
    decide (dist_sq ≤ capsule_radius * capsule_radius)
  else
    let t := (to_point.x * segment.x + to_point.z * segment.z) / segment_length_sq
    let tc := min 1 (max 0 t)
    let closest := capsule_start + segment * tc
    let dx := point.x - closest.x
    let dz := point.z - closest.z
    decide (dx * dx + dz * dz ≤ capsule_radius * capsule_radius)

/-- HybridFusionEngine::point_in_cone: range check then angular check against
the cosine of the half angle (XZ plane). -/
def point_in_cone (point cone_origin cone_direction : Vec3)
    (cone_half_angle cone_range : ℝ) : Bool :=
  let to_point := point - cone_origin
  let distance_sq := to_point.x * to_point.x + to_point.z * to_point.z
  if distance_sq > cone_range * cone_range then false
  else
    let distance := Real.sqrt distance_sq
    if distance < EPSILON then true
    else
      let dot_product := to_point.x * cone_direction.x + to_point.z * cone_direction.z
      let cos_angle := dot_product / distance
      decide (cos_angle ≥ Real.cos cone_half_angle)

/-- HybridFusionEngine::compute_capsule_behavior_probability: neutral 1.0 for
an empty PDF, otherwise the exact grid mass of the cells whose centers fall
inside the capsule, clamped. -/
def compute_capsule_behavior_probability {n : ℕ} (capsule_start capsule_direction : Vec3)
    (capsule_length capsule_radius : ℝ) (pdf : BehaviorPDF n) : ℝ :=
  if pdf.total_probability < EPSILON then 1
  else
    let capsule_end := capsule_start + capsule_direction * capsule_length
    let prob := ∑ x : Fin n, ∑ z : Fin n,
      let cell_center : Vec3 := ⟨cellCenterX pdf x, pdf.origin.y, cellCenterZ pdf z⟩
      if point_in_capsule cell_center capsule_start capsule_end capsule_radius then
        pdf.grid x z
      else 0
    min 1 (max 0 prob)

/-- HybridFusionEngine::compute_cone_behavior_probability: neutral 1.0 for an
empty PDF, otherwise the exact grid mass of the cells whose centers fall
inside the cone, clamped. -/
def compute_cone_behavior_probability {n : ℕ} (cone_origin cone_direction : Vec3)
    (cone_half_angle cone_range : ℝ) (pdf : BehaviorPDF n) : ℝ :=
  if pdf.total_probability < EPSILON then 1
  else
    let prob := ∑ x : Fin n, ∑ z : Fin n,
      let cell_center : Vec3 := ⟨cellCenterX pdf x, pdf.origin.y, cellCenterZ pdf z⟩
      if point_in_cone cell_center cone_origin cone_direction cone_half_angle cone_range then
        pdf.grid x z
      else 0
    min 1 (max 0 prob)

/-- Minimal game-entity view consumed by the fusion engine: a validity flag
(false both for a null pointer and for a failing is_valid check) and a
position. -/
structure Entity where
  valid : Bool
  position : Vec3

/-- Effect descriptor fields read by the edge-case phase (pred_sdk::spell_data). -/
structure SpellData where
  projectile_speed : ℝ
  delay : ℝ
  range : ℝ

/-- Stasis snapshot of the edge-case analysis: in stasis until end_time, exits
at exit_position.  The spec lists "in-stasis with exit position + remaining
time" among the consumed status flags. -/
structure StasisInfo where
  is_in_stasis : Bool
  exit_position : Vec3
  end_time : ℝ
  stasis_type : String

/-- Channeling / recalling snapshot of the edge-case analysis. -/
structure ChannelInfo where
  is_channeling : Bool
  is_recalling : Bool
  position : Vec3
  remaining_time : ℝ

/-- Edge-case analysis flags consumed by compute_hybrid_prediction (produced
by the external EdgeCases::analyze_target collaborator). -/
structure EdgeCaseAnalysis where
  is_clone : Bool
  blocked_by_windwall : Bool
  stasis : StasisInfo
  channel : ChannelInfo

/-- The hybrid prediction result record; the searched aim-point fields and
artifacts not read by the claims are omitted. -/
structure HybridPredictionResult where
  cast_position : Vec3
  hit_chance : ℝ
  physics_contribution : ℝ
  behavior_contribution : ℝ
  confidence_score : ℝ
  is_valid : Bool
  reasoning : String

/-- Modelled from the spec: default-constructed HybridPredictionResult (the
struct defaults live in the missing header).  Fail-closed: not valid, empty
reasoning, zero numerics. -/
def HybridPredictionResult.default : HybridPredictionResult :=
  { cast_position := ⟨0, 0, 0⟩, hit_chance := 0, physics_contribution := 0,
    behavior_contribution := 0, confidence_score := 0, is_valid := false,
    reasoning := "" }

/-- Modelled from the spec: EdgeCases::calculate_stasis_cast_timing
(EdgeCaseDetection.h is not among the sources).  Spec: "Stasis → compute the
delay needed so travel time lands exactly at exit"; the required pre-cast
delay is the remaining stasis time minus the spell travel time, negative
exactly when the spell cannot arrive by the stasis exit. -/
def calculate_stasis_cast_timing (stasis : StasisInfo)
    (spell_travel_time current_time : ℝ) : ℝ :=
  (stasis.end_time - current_time) - spell_travel_time

/-- Modelled from the spec: EdgeCases::can_interrupt_channel
(EdgeCaseDetection.h is not among the sources).  Spec: "travel time exceeding
remaining duration → invalid; else guaranteed hit". -/
def can_interrupt_channel (channel : ChannelInfo) (spell_travel_time : ℝ) : Bool :=
  decide (spell_travel_time ≤ channel.remaining_time)

/-- The edge-case phase of HybridFusionEngine::compute_hybrid_prediction:
entity validation, the clone and windwall filters, the stasis branch and the
channel branch.  Returns some result when one of these early returns fires
and none when control falls through to the shape-dispatch phase. -/
def compute_hybrid_prediction_edge (source target : Entity) (spell : SpellData)
    (edge_cases : EdgeCaseAnalysis) (current_time : ℝ) :
    Option HybridPredictionResult :=
  if ¬ source.valid ∨ ¬ target.valid then
    some { HybridPredictionResult.default with is_valid := false }
  else if edge_cases.is_clone then
    some { HybridPredictionResult.default with
           is_valid := false
           reasoning := "Target is a clone (Shaco/Wukong/LeBlanc/Neeko)" }
  else if edge_cases.blocked_by_windwall then
    some { HybridPredictionResult.default with
           is_valid := false
           reasoning := "Projectile will be blocked by windwall (Yasuo/Samira/Braum)" }
  else if edge_cases.stasis.is_in_stasis then
    let spell_travel_time := compute_arrival_time source.position target.position
      spell.projectile_speed spell.delay
    let cast_delay := calculate_stasis_cast_timing edge_cases.stasis
      spell_travel_time current_time
    if cast_delay < 0 then
      some { HybridPredictionResult.default with
             is_valid := false
             reasoning := "Stasis timing impossible - travel time too long" }
    else if cast_delay > 0 then
      -- The source interpolates the numeric wait into this string.
      some { HybridPredictionResult.default with
             is_valid := false
             reasoning := "Wait for stasis exit timing" }
    else
      some { cast_position := edge_cases.stasis.exit_position
             hit_chance := 1
             physics_contribution := 1
             behavior_contribution := 1
             confidence_score := 1
             is_valid := true
             reasoning := "STASIS EXIT PREDICTION - GUARANTEED HIT" }
  else if edge_cases.channel.is_channeling ∨ edge_cases.channel.is_recalling then
    let spell_travel_time := compute_arrival_time source.position target.position
      spell.projectile_speed spell.delay
    if ¬ can_interrupt_channel edge_cases.channel spell_travel_time then
      some { HybridPredictionResult.default with
             is_valid := false
             reasoning := "Channel will finish before spell arrives" }
    else
      some { cast_position := edge_cases.channel.position
             hit_chance := 1
             physics_contribution := 1
             behavior_contribution := 1
             confidence_score := 1
             is_valid := true
             reasoning := "CHANNEL INTERRUPT - GUARANTEED HIT" }
  else none

/-!  Theorems for the spec claims. -/

/-- C10: whenever the BehaviorPDF handed to a behavior hit-probability
evaluator has total probability below the EPSILON guard, the point/circle,
capsule and cone evaluators all return the neutral maximal factor 1.0, so
absent behavior data never reduces the fused hit chance. -/
theorem c10_empty_pdf_neutral {n : ℕ} (pdf : BehaviorPDF n)
    (h : pdf.total_probability < EPSILON)
    (cast_position : Vec3) (projectile_radius : ℝ)
    (capsule_start capsule_direction : Vec3) (capsule_length capsule_radius : ℝ)
    (cone_origin cone_direction : Vec3) (cone_half_angle cone_range : ℝ) :
    compute_behavior_hit_probability cast_position projectile_radius pdf = 1 ∧
    compute_capsule_behavior_probability capsule_start capsule_direction
      capsule_length capsule_radius pdf = 1 ∧
    compute_cone_behavior_probability cone_origin cone_direction
      cone_half_angle cone_range pdf = 1 := by
  refine ⟨?_, ?_, ?_⟩
  · unfold compute_behavior_hit_probability
    rw [if_pos h]
  · unfold compute_capsule_behavior_probability
    rw [if_pos h]
  · unfold compute_cone_behavior_probability
    rw [if_pos h]

/-- Witness for C10 at the default-initialized (all-zero) PDF. -/
theorem c10_empty_pdf_neutral_witness :
    compute_behavior_hit_probability ⟨1, 2, 3⟩ 50 (BehaviorPDF.default 8) = 1 ∧
    compute_capsule_behavior_probability ⟨0, 0, 0⟩ ⟨1, 0, 0⟩ 700 60
      (BehaviorPDF.default 8) = 1 ∧
    compute_cone_behavior_probability ⟨0, 0, 0⟩ ⟨1, 0, 0⟩ (1 / 2) 500
      (BehaviorPDF.default 8) = 1 :=
  c10_empty_pdf_neutral (BehaviorPDF.default 8)
    (by norm_num [BehaviorPDF.default, EPSILON]) ⟨1, 2, 3⟩ 50
    ⟨0, 0, 0⟩ ⟨1, 0, 0⟩ 700 60 ⟨0, 0, 0⟩ ⟨1, 0, 0⟩ (1 / 2) 500

/-- C6: the patience veto of is_peak_opportunity is absolute: whenever
elapsed_time < patience_window the method returns false, for every hit
chance, threshold, current time and window content. -/
theorem c6_patience_veto (w : OpportunityWindow)
    (current_time hit_chance adaptive_threshold elapsed_time patience_window : ℝ)
    (h : elapsed_time < patience_window) :
    w.is_peak_opportunity current_time hit_chance adaptive_threshold
      elapsed_time patience_window = false := by
  unfold OpportunityWindow.is_peak_opportunity
  rw [if_pos h]

/-- Witness for C6: a well-filled window with a high hit chance is still
vetoed when the elapsed time is under the patience window. -/
theorem c6_patience_veto_witness :
    OpportunityWindow.is_peak_opportunity
      ⟨[(0, 1), (1, 1), (2, 1), (3, 1), (4, 1)], 1, 4, 0, 1⟩
      5 1 (1 / 2) 1 (3 / 2) = false :=
  c6_patience_veto ⟨[(0, 1), (1, 1), (2, 1), (3, 1), (4, 1)], 1, 4, 0, 1⟩
    5 1 (1 / 2) 1 (3 / 2) (by norm_num)

/-- C8: get_stationary_hitchance_boost returns 0 for non-stationary targets
and for stationary durations below 0.5s, follows the linear ramp
0.5 + (d - 0.5) / 0.5 * 0.25 (which reaches 0.75 at d = 1) on [0.5s, 1s),
and returns 0.75 for every duration at or above 1s. -/
theorem c8_stationary_boost {n : ℕ} (st : TrackerState n) (current_time : ℝ) :
    (st.is_currently_stationary = false →
      st.get_stationary_hitchance_boost current_time = 0) ∧
    (st.is_currently_stationary = true →
      (st.get_stationary_duration current_time < 1 / 2 →
        st.get_stationary_hitchance_boost current_time = 0) ∧
      (1 / 2 ≤ st.get_stationary_duration current_time →
        st.get_stationary_duration current_time < 1 →
        st.get_stationary_hitchance_boost current_time =
          1 / 2 + (st.get_stationary_duration current_time - 1 / 2) / (1 / 2) * (1 / 4)) ∧
      (1 ≤ st.get_stationary_duration current_time →
        st.get_stationary_hitchance_boost current_time = 3 / 4)) := by
  constructor
  · intro h
    unfold TrackerState.get_stationary_hitchance_boost
    rw [if_pos (by simp [h])]
  · intro h
    refine ⟨?_, ?_, ?_⟩
    · intro hd
      unfold TrackerState.get_stationary_hitchance_boost
      rw [if_neg (by simp [h]), if_pos hd]
    · intro hd1 hd2
      unfold TrackerState.get_stationary_hitchance_boost
      rw [if_neg (by simp [h]), if_neg (by linarith), if_neg (by intro hge; linarith)]
    · intro hd
      unfold TrackerState.get_stationary_hitchance_boost
      rw [if_neg (by simp [h]), if_neg (by linarith), if_pos (by linarith)]

/-- Witness for C8 covering all four regimes at concrete states. -/
theorem c8_stationary_boost_witness :
    TrackerState.get_stationary_hitchance_boost (n := 1)
      ⟨[], ⟨0, 0, 0, 0, 0, false, 0, ⟨0, 0, 0⟩⟩, [], BehaviorPDF.default 1,
        -1, -1, -1, false, 0⟩ 10 = 0 ∧
    TrackerState.get_stationary_hitchance_boost (n := 1)
      ⟨[], ⟨0, 0, 0, 0, 0, false, 0, ⟨0, 0, 0⟩⟩, [], BehaviorPDF.default 1,
        -1, -1, -1, true, 10⟩ (10 + 3 / 10) = 0 ∧
    TrackerState.get_stationary_hitchance_boost (n := 1)
      ⟨[], ⟨0, 0, 0, 0, 0, false, 0, ⟨0, 0, 0⟩⟩, [], BehaviorPDF.default 1,
        -1, -1, -1, true, 10⟩ (10 + 3 / 4) = 5 / 8 ∧
    TrackerState.get_stationary_hitchance_boost (n := 1)
      ⟨[], ⟨0, 0, 0, 0, 0, false, 0, ⟨0, 0, 0⟩⟩, [], BehaviorPDF.default 1,
        -1, -1, -1, true, 10⟩ 12 = 3 / 4 := by
  refine ⟨?_, ?_, ?_, ?_⟩
  · exact (c8_stationary_boost _ 10).1 rfl
  · refine ((c8_stationary_boost _ (10 + 3 / 10)).2 rfl).1 ?_
    simp only [TrackerState.get_stationary_duration, if_neg]
    norm_num
  · have h := ((c8_stationary_boost (n := 1)
      ⟨[], ⟨0, 0, 0, 0, 0, false, 0, ⟨0, 0, 0⟩⟩, [], BehaviorPDF.default 1,
        -1, -1, -1, true, 10⟩ (10 + 3 / 4)).2 rfl).2.1
    have hd : TrackerState.get_stationary_duration (n := 1)
        ⟨[], ⟨0, 0, 0, 0, 0, false, 0, ⟨0, 0, 0⟩⟩, [], BehaviorPDF.default 1,
          -1, -1, -1, true, 10⟩ (10 + 3 / 4) = 3 / 4 := by
      simp only [TrackerState.get_stationary_duration]
      norm_num
    rw [hd] at h
    rw [h (by norm_num) (by norm_num)]
    norm_num
  · refine ((c8_stationary_boost _ 12).2 rfl).2.2 ?_
    simp only [TrackerState.get_stationary_duration, if_neg]
    norm_num

/-- Shape of normalize when the cell sum clears the EPSILON guard. -/
theorem BehaviorPDF.normalize_of_pos {n : ℕ} (pdf : BehaviorPDF n)
    (h : EPSILON < pdf.gridSum) :
    pdf.normalize = { pdf with
                      grid := fun i j => pdf.grid i j * (1 / pdf.gridSum)
                      total_probability := 1 } := by
  unfold BehaviorPDF.normalize
  dsimp only
  rw [if_pos (show (∑ i : Fin n, ∑ j : Fin n, pdf.grid i j) > EPSILON from h)]
  rfl

/-- Shape of normalize when the cell sum does not clear the EPSILON guard. -/
theorem BehaviorPDF.normalize_of_nonpos {n : ℕ} (pdf : BehaviorPDF n)
    (h : ¬ EPSILON < pdf.gridSum) :
    pdf.normalize = { pdf with total_probability := pdf.gridSum } := by
  unfold BehaviorPDF.normalize
  dsimp only
  rw [if_neg (show ¬ (∑ i : Fin n, ∑ j : Fin n, pdf.grid i j) > EPSILON from h)]
  rfl

/-- C7: normalize makes the cells of any grid whose sum is above the EPSILON
guard sum to exactly 1 (hence within the 1e-4 tolerance), and leaves the
cells of an all-zero grid unchanged. -/
theorem c7_normalize {n : ℕ} (pdf : BehaviorPDF n) :
    (EPSILON < pdf.gridSum →
      pdf.normalize.gridSum = 1 ∧ |pdf.normalize.gridSum - 1| ≤ 1 / 10000) ∧
    ((∀ i j, pdf.grid i j = 0) → pdf.normalize.grid = pdf.grid) := by
  constructor
  · intro h
    have hne : pdf.gridSum ≠ 0 := by
      have h0 : (0 : ℝ) < EPSILON := by norm_num [EPSILON]
      intro hz
      rw [hz] at h
      linarith
    have hS : pdf.normalize.gridSum = 1 := by
      rw [BehaviorPDF.normalize_of_pos pdf h]
      unfold BehaviorPDF.gridSum
      dsimp only
      simp only [← Finset.sum_mul]
      exact mul_one_div_cancel hne
    exact ⟨hS, by rw [hS]; norm_num⟩
  · intro h
    have hz : pdf.gridSum = 0 := by
      unfold BehaviorPDF.gridSum
      simp [h]
    rw [BehaviorPDF.normalize_of_nonpos pdf (by rw [hz]; norm_num [EPSILON])]

/-- Witness for C7: a 2 by 2 all-ones grid normalizes to cell sum exactly 1,
and the all-zero default grid is unchanged by normalize. -/
theorem c7_normalize_witness :
    (({ origin := ⟨0, 0, 0⟩, cell_size := 1, grid := fun _ _ => 1,
        total_probability := 0 } : BehaviorPDF 2).normalize.gridSum = 1) ∧
    (BehaviorPDF.default 8).normalize.grid = (BehaviorPDF.default 8).grid := by
  constructor
  · exact ((c7_normalize _).1
      (by norm_num [BehaviorPDF.gridSum, EPSILON, Fin.sum_univ_two])).1
  · exact (c7_normalize _).2 (fun i j => rfl)

@[simp] theorem Vec3.magnitude_mk (x y z : ℝ) :
    (⟨x, y, z⟩ : Vec3).magnitude = Real.sqrt (x * x + y * y + z * z) := rfl

theorem Vec3.magnitude_self_sub (c : Vec3) : (c - c).magnitude = 0 := by
  simp [Vec3.magnitude]

/-- C5: the intersection area of two identical circles above the
minimum-radius guard is PI r^2, circles whose center distance is at least the
sum of the radii intersect in area 0, and the function is symmetric under
swapping its two circle operands. -/
theorem c5_intersection_area :
    (∀ (c : Vec3) (r : ℝ), MIN_RADIUS ≤ r →
      circle_circle_intersection_area c r c r = PI * r * r) ∧
    (∀ (c1 : Vec3) (r1 : ℝ) (c2 : Vec3) (r2 : ℝ),
      (c2 - c1).magnitude ≥ r1 + r2 →
      circle_circle_intersection_area c1 r1 c2 r2 = 0) ∧
    (∀ (c1 : Vec3) (r1 : ℝ) (c2 : Vec3) (r2 : ℝ),
      circle_circle_intersection_area c1 r1 c2 r2 =
        circle_circle_intersection_area c2 r2 c1 r1) := by
  refine ⟨?_, ?_, ?_⟩
  · intro c r hr
    have hrpos : (0 : ℝ) < r := lt_of_lt_of_le (by norm_num [MIN_RADIUS]) hr
    unfold circle_circle_intersection_area
    rw [if_neg (by rw [or_self]; exact not_lt.mpr hr)]
    dsimp only
    rw [Vec3.magnitude_self_sub]
    rw [if_neg (by push_neg; linarith)]
    rw [if_pos (abs_nonneg _)]
    rw [min_self]
  · intro c1 r1 c2 r2 h
    unfold circle_circle_intersection_area
    by_cases hg : r1 < MIN_RADIUS ∨ r2 < MIN_RADIUS
    · rw [if_pos hg]
    · rw [if_neg hg]
      dsimp only
      rw [if_pos h]
  · intro c1 r1 c2 r2
    unfold circle_circle_intersection_area
    dsimp only
    rw [Vec3.magnitude_sub_comm c2 c1]
    set d := (c1 - c2).magnitude with hd
    by_cases hg : r1 < MIN_RADIUS ∨ r2 < MIN_RADIUS
    · rw [if_pos hg, if_pos hg.symm]
    · rw [if_neg hg,
        if_neg (show ¬ (r2 < MIN_RADIUS ∨ r1 < MIN_RADIUS) from fun hh => hg hh.symm)]
      by_cases h1 : d ≥ r1 + r2
      · rw [if_pos h1, if_pos (show d ≥ r2 + r1 by linarith)]
      · rw [if_neg h1, if_neg (show ¬ d ≥ r2 + r1 from fun hx => h1 (by linarith))]
        by_cases h2 : d ≤ |r1 - r2|
        · rw [if_pos h2, if_pos (show d ≤ |r2 - r1| by rw [abs_sub_comm]; exact h2),
            min_comm]
        · rw [if_neg h2, if_neg (show ¬ d ≤ |r2 - r1| by rw [abs_sub_comm]; exact h2),
            min_comm r2 r1]
          by_cases h3 : d < MIN_RADIUS
          · rw [if_pos h3, if_pos h3]
          · rw [if_neg h3, if_neg h3]
            have hsq : (r2 + r1 - d) * (r2 - r1 + d) * (-r2 + r1 + d) * (r2 + r1 + d)
                = (r1 + r2 - d) * (r1 - r2 + d) * (-r1 + r2 + d) * (r1 + r2 + d) := by
              ring
            rw [hsq]
            by_cases h4 : (r1 + r2 - d) * (r1 - r2 + d) * (-r1 + r2 + d) * (r1 + r2 + d) > 0
            · rw [if_pos h4, if_pos h4]
              ring
            · rw [if_neg h4, if_neg h4]
              ring

/-- Witness for C5: identical unit circles at the origin intersect in area
PI, and unit circles three units apart intersect in area 0. -/
theorem c5_intersection_area_witness :
    circle_circle_intersection_area ⟨0, 0, 0⟩ 1 ⟨0, 0, 0⟩ 1 = PI * 1 * 1 ∧
    circle_circle_intersection_area ⟨0, 0, 0⟩ 1 ⟨3, 0, 0⟩ 1 = 0 := by
  constructor
  · exact c5_intersection_area.1 ⟨0, 0, 0⟩ 1 (by norm_num [MIN_RADIUS])
  · refine c5_intersection_area.2.1 ⟨0, 0, 0⟩ 1 ⟨3, 0, 0⟩ 1 ?_
    have hm : ((⟨3, 0, 0⟩ : Vec3) - ⟨0, 0, 0⟩).magnitude = 3 := by
      simp only [Vec3.sub_def, Vec3.magnitude_mk]
      rw [show ((3 : ℝ) - 0) * ((3 : ℝ) - 0) + (0 - 0) * (0 - 0) + (0 - 0) * (0 - 0)
          = 3 ^ 2 by norm_num]
      exact Real.sqrt_sq (by norm_num)
    rw [hm]
    norm_num

/-- Evaluation helper: the magnitude of a literal vector whose squared length
is a perfect square. -/
theorem Vec3.magnitude_eval (x y z r : ℝ) (hr : 0 ≤ r) (h : x * x + y * y + z * z = r ^ 2) :
    (⟨x, y, z⟩ : Vec3).magnitude = r := by
  rw [Vec3.magnitude_mk, h]
  exact Real.sqrt_sq hr

/-- Any ordinary projectile speed is far below the FLT_MAX / 2 instant
sentinel threshold. -/
theorem lt_flt_max_half : (100000 : ℝ) < FLT_MAX / 2 := by
  have h23 : (2 : ℝ) ^ (-23 : ℤ) ≤ 1 := by
    rw [zpow_neg]
    rw [show ((23 : ℤ) : ℤ) = ((23 : ℕ) : ℤ) by norm_num, zpow_natCast]
    rw [inv_le_one_iff₀]
    right
    norm_num
  have h127 : (2 : ℝ) ^ (127 : ℕ) ≥ 2 ^ (20 : ℕ) := by
    apply pow_le_pow_right₀ (by norm_num)
    norm_num
  have : FLT_MAX ≥ 1 * 2 ^ (20 : ℕ) := by
    unfold FLT_MAX
    calc (2 - (2 : ℝ) ^ (-23 : ℤ)) * 2 ^ (127 : ℕ)
        ≥ 1 * 2 ^ (127 : ℕ) := by
          apply mul_le_mul_of_nonneg_right (by linarith) (by positivity)
      _ ≥ 1 * 2 ^ (20 : ℕ) := by
          rw [one_mul, one_mul]
          exact h127
  have hp : (2 : ℝ) ^ (20 : ℕ) = 1048576 := by norm_num
  rw [hp] at this
  linarith

/-- compute_arrival_time for an ordinary finite projectile speed. -/
theorem compute_arrival_time_finite (source_pos target_pos : Vec3) (speed delay : ℝ)
    (h1 : EPSILON ≤ speed) (h2 : speed ≤ 100000) :
    compute_arrival_time source_pos target_pos speed delay =
      delay + (target_pos - source_pos).magnitude / speed := by
  unfold compute_arrival_time
  rw [if_neg]
  push_neg
  exact ⟨h1, lt_of_le_of_lt h2 lt_flt_max_half⟩

/-- C1: for a target in stasis (valid entities, no clone or windwall filter),
when the arrival time of the spell equals the remaining stasis time the edge
phase returns the deterministic result at the stasis exit position with hit
chance 1 and confidence 1; when the arrival time exceeds the remaining stasis
time it returns an invalid result with a non-empty reasoning string. -/
theorem c1_stasis_timing (source target : Entity) (spell : SpellData)
    (edge_cases : EdgeCaseAnalysis) (current_time : ℝ)
    (hs : source.valid = true) (ht : target.valid = true)
    (hclone : edge_cases.is_clone = false)
    (hww : edge_cases.blocked_by_windwall = false)
    (hst : edge_cases.stasis.is_in_stasis = true) :
    (compute_arrival_time source.position target.position
        spell.projectile_speed spell.delay =
        edge_cases.stasis.end_time - current_time →
      compute_hybrid_prediction_edge source target spell edge_cases current_time =
        some { cast_position := edge_cases.stasis.exit_position
               hit_chance := 1
               physics_contribution := 1
               behavior_contribution := 1
               confidence_score := 1
               is_valid := true
               reasoning := "STASIS EXIT PREDICTION - GUARANTEED HIT" }) ∧
    (compute_arrival_time source.position target.position
        spell.projectile_speed spell.delay >
        edge_cases.stasis.end_time - current_time →
      ∃ r, compute_hybrid_prediction_edge source target spell edge_cases current_time =
          some r ∧ r.is_valid = false ∧ r.reasoning ≠ "") := by
  have hentity : ¬ (¬ source.valid = true ∨ ¬ target.valid = true) := by
    simp [hs, ht]
  constructor
  · intro harr
    unfold compute_hybrid_prediction_edge
    rw [if_neg hentity, if_neg (by simp [hclone]), if_neg (by simp [hww]),
      if_pos (by simp [hst])]
    dsimp only
    unfold calculate_stasis_cast_timing
    rw [harr, sub_self]
    rw [if_neg (lt_irrefl 0), if_neg (lt_irrefl 0)]
  · intro harr
    unfold compute_hybrid_prediction_edge
    rw [if_neg hentity, if_neg (by simp [hclone]), if_neg (by simp [hww]),
      if_pos (by simp [hst])]
    dsimp only
    unfold calculate_stasis_cast_timing
    rw [if_pos (by linarith)]
    refine ⟨_, rfl, rfl, ?_⟩
    intro h
    simp at h

/-- Witness for C1: a target 500 units away in stasis with 0.6s left.  A
1000-speed, 0.1s-delay spell arrives in exactly 0.6s and yields the
guaranteed-hit result at the exit position; a 500-speed spell arrives in
1.1s and yields an invalid result with a reasoning string. -/
theorem c1_stasis_timing_witness :
    (compute_hybrid_prediction_edge ⟨true, ⟨0, 0, 0⟩⟩ ⟨true, ⟨300, 0, 400⟩⟩
        ⟨1000, 1 / 10, 900⟩
        ⟨false, false, ⟨true, ⟨300, 0, 400⟩, 53 / 5, "Zhonya"⟩,
          ⟨false, false, ⟨0, 0, 0⟩, 0⟩⟩ 10 =
      some { cast_position := ⟨300, 0, 400⟩
             hit_chance := 1
             physics_contribution := 1
             behavior_contribution := 1
             confidence_score := 1
             is_valid := true
             reasoning := "STASIS EXIT PREDICTION - GUARANTEED HIT" }) ∧
    (∃ r, compute_hybrid_prediction_edge ⟨true, ⟨0, 0, 0⟩⟩ ⟨true, ⟨300, 0, 400⟩⟩
        ⟨500, 1 / 10, 900⟩
        ⟨false, false, ⟨true, ⟨300, 0, 400⟩, 53 / 5, "Zhonya"⟩,
          ⟨false, false, ⟨0, 0, 0⟩, 0⟩⟩ 10 =
      some r ∧ r.is_valid = false ∧ r.reasoning ≠ "") := by
  have hmag : ((⟨300, 0, 400⟩ : Vec3) - ⟨0, 0, 0⟩).magnitude = 500 := by
    simp only [Vec3.sub_def]
    exact Vec3.magnitude_eval _ _ _ 500 (by norm_num) (by norm_num)
  constructor
  · refine (c1_stasis_timing ⟨true, ⟨0, 0, 0⟩⟩ ⟨true, ⟨300, 0, 400⟩⟩ ⟨1000, 1 / 10, 900⟩
      ⟨false, false, ⟨true, ⟨300, 0, 400⟩, 53 / 5, "Zhonya"⟩,
        ⟨false, false, ⟨0, 0, 0⟩, 0⟩⟩ 10 rfl rfl rfl rfl rfl).1 ?_
    rw [compute_arrival_time_finite _ _ _ _ (by norm_num [EPSILON]) (by norm_num)]
    dsimp only
    rw [hmag]
    norm_num
  · refine (c1_stasis_timing ⟨true, ⟨0, 0, 0⟩⟩ ⟨true, ⟨300, 0, 400⟩⟩ ⟨500, 1 / 10, 900⟩
      ⟨false, false, ⟨true, ⟨300, 0, 400⟩, 53 / 5, "Zhonya"⟩,
        ⟨false, false, ⟨0, 0, 0⟩, 0⟩⟩ 10 rfl rfl rfl rfl rfl).2 ?_
    rw [compute_arrival_time_finite _ _ _ _ (by norm_num [EPSILON]) (by norm_num)]
    dsimp only
    rw [hmag]
    norm_num

/-- Counterexample for C2 as stated: with the aim point away from the region
center, growing the reachable radius can increase the physics hit
probability.  A unit-radius effect aimed 10 units from the center misses an
8-unit reachable disk entirely (probability 0) but overlaps an 11-unit disk
(probability 1/121), refuting the claimed non-increase for radii 8 and 11. -/
theorem c2_counterexample :
    ¬ (compute_physics_hit_probability ⟨10, 0, 0⟩ 1
         (compute_reachable_region ⟨0, 0, 0⟩ ⟨0, 0, 0⟩ 1 11 0 0) ≤
       compute_physics_hit_probability ⟨10, 0, 0⟩ 1
         (compute_reachable_region ⟨0, 0, 0⟩ ⟨0, 0, 0⟩ 1 8 0 0)) := by
  have hpi : (0 : ℝ) < PI := Real.pi_pos
  have hz : (⟨0, 0, 0⟩ : Vec3).magnitude = 0 := by
    simp
  have hreg : ∀ ms : ℝ, compute_reachable_region ⟨0, 0, 0⟩ ⟨0, 0, 0⟩ 1 ms 0 0 =
      { center := ⟨0, 0, 0⟩, max_radius := ms, area := PI * ms * ms } := by
    intro ms
    unfold compute_reachable_region
    rw [if_neg (by norm_num [EPSILON])]
    dsimp only
    rw [hz]
    rw [if_neg (fun hc => absurd hc.2 (lt_irrefl 0))]
    rw [mul_one]
  have hd : ((⟨0, 0, 0⟩ : Vec3) - ⟨10, 0, 0⟩).magnitude = 10 := by
    simp only [Vec3.sub_def]
    exact Vec3.magnitude_eval _ _ _ 10 (by norm_num) (by norm_num)
  have hc8 : circle_circle_intersection_area ⟨10, 0, 0⟩ 1 ⟨0, 0, 0⟩ 8 = 0 := by
    unfold circle_circle_intersection_area
    rw [if_neg (by push_neg; constructor <;> norm_num [MIN_RADIUS])]
    dsimp only
    rw [hd]
    rw [if_pos (by norm_num)]
  have habs : |(1 : ℝ) - 11| = 10 := by
    rw [abs_sub_comm]
    rw [show (11 : ℝ) - 1 = 10 by norm_num]
    exact abs_of_nonneg (by norm_num)
  have hc11 : circle_circle_intersection_area ⟨10, 0, 0⟩ 1 ⟨0, 0, 0⟩ 11 = PI := by
    unfold circle_circle_intersection_area
    rw [if_neg (by push_neg; constructor <;> norm_num [MIN_RADIUS])]
    dsimp only
    rw [hd]
    rw [if_neg (by norm_num)]
    rw [if_pos (by rw [habs])]
    rw [min_eq_left (by norm_num)]
    ring
  have hp8 : compute_physics_hit_probability ⟨10, 0, 0⟩ 1
      { center := ⟨0, 0, 0⟩, max_radius := 8, area := PI * 8 * 8 } = 0 := by
    unfold compute_physics_hit_probability
    dsimp only
    rw [if_neg (by push_neg; unfold PI EPSILON; nlinarith [Real.pi_gt_three])]
    rw [hc8, zero_div]
    norm_num
  have hp11 : compute_physics_hit_probability ⟨10, 0, 0⟩ 1
      { center := ⟨0, 0, 0⟩, max_radius := 11, area := PI * 11 * 11 } = 1 / 121 := by
    unfold compute_physics_hit_probability
    dsimp only
    rw [if_neg (by push_neg; unfold PI EPSILON; nlinarith [Real.pi_gt_three])]
    rw [hc11]
    rw [show PI / (PI * 11 * 11) = 1 / 121 by
      rw [mul_assoc]
      rw [show (11 : ℝ) * 11 = 121 by norm_num]
      rw [div_eq_div_iff (by positivity) (by norm_num)]
      ring]
    rw [min_eq_right (by norm_num)]
  rw [hreg 8, hreg 11, hp8, hp11]
  norm_num

/-- C2 amended: with the aim point at the center of the reachable region and
the smaller disk above the EPSILON area guard, the physics hit probability is
non-increasing as the region radius grows (areas as produced by
compute_reachable_region, PI radius squared). -/
theorem c2_amended_monotone_at_center (c : Vec3) (projectile_radius r1 r2 : ℝ)
    (h0 : 0 ≤ r1) (h12 : r1 ≤ r2)
    (hguard : ¬ PI * r1 * r1 < EPSILON) :
    compute_physics_hit_probability c projectile_radius
        { center := c, max_radius := r2, area := PI * r2 * r2 } ≤
      compute_physics_hit_probability c projectile_radius
        { center := c, max_radius := r1, area := PI * r1 * r1 } := by
  have hpi : (0 : ℝ) < PI := Real.pi_pos
  have heps : (0 : ℝ) < EPSILON := by norm_num [EPSILON]
  have hr1 : 0 < r1 := by
    rcases eq_or_lt_of_le h0 with h | h
    · exfalso
      apply hguard
      rw [← h]
      simpa using heps
    · exact h
  have hr2 : 0 < r2 := lt_of_lt_of_le hr1 h12
  have hsq12 : r1 * r1 ≤ r2 * r2 := mul_le_mul h12 h12 h0 hr2.le
  have hguard2 : ¬ PI * r2 * r2 < EPSILON := by
    intro hlt
    apply hguard
    have hle : PI * r1 * r1 ≤ PI * r2 * r2 := by
      nlinarith [mul_le_mul_of_nonneg_left hsq12 hpi.le]
    linarith
  have hminr1 : MIN_RADIUS ≤ r1 := by
    by_contra hlt
    push_neg at hlt
    apply hguard
    have hpi4 : PI < 4 := by
      unfold PI
      nlinarith [Real.pi_lt_d2]
    have hr1small : r1 < 1 / 1000000 := by simpa [MIN_RADIUS] using hlt
    have ha : r1 * r1 < (1 / 1000000) * (1 / 1000000) :=
      mul_lt_mul hr1small hr1small.le hr1 (by norm_num)
    have hb : PI * r1 * r1 ≤ 4 * (r1 * r1) := by
      nlinarith [mul_pos hr1 hr1]
    unfold EPSILON
    nlinarith
  have hminr2 : MIN_RADIUS ≤ r2 := le_trans hminr1 h12
  have hzero : (c - c).magnitude = 0 := Vec3.magnitude_self_sub c
  by_cases hpr : projectile_radius < MIN_RADIUS
  · have hc0 : ∀ r : ℝ, circle_circle_intersection_area c projectile_radius c r = 0 := by
      intro r
      unfold circle_circle_intersection_area
      rw [if_pos (Or.inl hpr)]
    unfold compute_physics_hit_probability
    dsimp only
    rw [if_neg hguard2, if_neg hguard, hc0 r1, hc0 r2, zero_div, zero_div]
  · have hprpos : 0 < projectile_radius :=
      lt_of_lt_of_le (by norm_num [MIN_RADIUS]) (not_lt.mp hpr)
    have hcci : ∀ r : ℝ, MIN_RADIUS ≤ r → 0 < r →
        circle_circle_intersection_area c projectile_radius c r =
          PI * min projectile_radius r * min projectile_radius r := by
      intro r hr hrpos
      unfold circle_circle_intersection_area
      rw [if_neg (by push_neg; exact ⟨not_lt.mp hpr, hr⟩)]
      dsimp only
      rw [hzero]
      rw [if_neg (by push_neg; linarith)]
      rw [if_pos (abs_nonneg _)]
    unfold compute_physics_hit_probability
    dsimp only
    rw [if_neg hguard2, if_neg hguard, hcci r1 hminr1 hr1, hcci r2 hminr2 hr2]
    apply min_le_min le_rfl
    rw [div_le_div_iff₀ (by positivity) (by positivity)]
    have key : min projectile_radius r2 * min projectile_radius r2 * (r1 * r1) ≤
        min projectile_radius r1 * min projectile_radius r1 * (r2 * r2) := by
      rcases le_total projectile_radius r1 with hc1 | hc1
      · rw [min_eq_left hc1, min_eq_left (le_trans hc1 h12)]
        exact mul_le_mul_of_nonneg_left hsq12 (by positivity)
      · rw [min_eq_right hc1]
        rcases le_total projectile_radius r2 with hc2 | hc2
        · rw [min_eq_left hc2]
          have hsqp : projectile_radius * projectile_radius ≤ r2 * r2 :=
            mul_le_mul hc2 hc2 hprpos.le hr2.le
          calc projectile_radius * projectile_radius * (r1 * r1)
              = (r1 * r1) * (projectile_radius * projectile_radius) := by ring
            _ ≤ (r1 * r1) * (r2 * r2) := mul_le_mul_of_nonneg_left hsqp (by positivity)
            _ = r1 * r1 * (r2 * r2) := by ring
        · rw [min_eq_right hc2]
          exact le_of_eq (by ring)
    calc PI * min projectile_radius r2 * min projectile_radius r2 * (PI * r1 * r1)
        = PI * PI * (min projectile_radius r2 * min projectile_radius r2 * (r1 * r1)) := by
          ring
      _ ≤ PI * PI * (min projectile_radius r1 * min projectile_radius r1 * (r2 * r2)) := by
          apply mul_le_mul_of_nonneg_left key (by positivity)
      _ = PI * min projectile_radius r1 * min projectile_radius r1 * (PI * r2 * r2) := by
          ring

/-- Witness for the amended C2 at concrete radii 1 and 2 with a unit effect
radius aimed at the center. -/
theorem c2_amended_monotone_at_center_witness :
    compute_physics_hit_probability ⟨0, 0, 0⟩ 1
        { center := ⟨0, 0, 0⟩, max_radius := 2, area := PI * 2 * 2 } ≤
      compute_physics_hit_probability ⟨0, 0, 0⟩ 1
        { center := ⟨0, 0, 0⟩, max_radius := 1, area := PI * 1 * 1 } :=
  c2_amended_monotone_at_center ⟨0, 0, 0⟩ 1 1 2 (by norm_num) (by norm_num)
    (by push_neg; unfold PI EPSILON; nlinarith [Real.pi_gt_three])

/-- C9: two build_behavior_pdf calls at the same game time with identical
prediction_time and move_speed and no tracker update in between return the
same BehaviorPDF (bit-identical contents: same origin, cell_size and grid),
for every tracker state: either the second call hits the per-tick cache
written by the first, or both calls recompute the same pure function of the
unchanged history. -/
theorem c9_build_pdf_deterministic {n : ℕ} (st : TrackerState n)
    (prediction_time move_speed current_time : ℝ) :
    ((st.build_behavior_pdf prediction_time move_speed current_time).2.build_behavior_pdf
        prediction_time move_speed current_time).1 =
      (st.build_behavior_pdf prediction_time move_speed current_time).1 := by
  by_cases h1 : |current_time - st.cached_timestamp| < EPSILON ∧
      |prediction_time - st.cached_prediction_time| < 1 / 20 ∧
      |move_speed - st.cached_move_speed| < 20 ∧
      st.cached_pdf.total_probability > EPSILON
  · have hfix : st.build_behavior_pdf prediction_time move_speed current_time =
        (st.cached_pdf, st) := by
      unfold TrackerState.build_behavior_pdf
      rw [if_pos h1]
    rw [hfix, hfix]
  · rcases hL : st.movement_history.getLast? with _ | latest
    · have hfix : st.build_behavior_pdf prediction_time move_speed current_time =
          (BehaviorPDF.default n, st) := by
        unfold TrackerState.build_behavior_pdf
        rw [if_neg h1, hL]
      rw [hfix, hfix]
    · by_cases h2 : latest.is_cced = true ∨ latest.is_casting = true
      · have hfix : st.build_behavior_pdf prediction_time move_speed current_time =
            (buildLockedPdf n latest prediction_time move_speed, st) := by
          unfold TrackerState.build_behavior_pdf
          rw [if_neg h1, hL]
          dsimp only
          rw [if_pos h2]
        rw [hfix, hfix]
      · have hfix : st.build_behavior_pdf prediction_time move_speed current_time =
            (buildMainPdf n st.movement_history st.dodge_pattern
               st.direction_change_angles latest prediction_time move_speed,
             { st with
               cached_pdf := buildMainPdf n st.movement_history st.dodge_pattern
                 st.direction_change_angles latest prediction_time move_speed
               cached_prediction_time := prediction_time
               cached_move_speed := move_speed
               cached_timestamp := current_time }) := by
          unfold TrackerState.build_behavior_pdf
          rw [if_neg h1, hL]
          dsimp only
          rw [if_neg h2]
        rw [hfix]
        dsimp only
        by_cases h3 : (buildMainPdf n st.movement_history st.dodge_pattern
            st.direction_change_angles latest prediction_time move_speed).total_probability >
            EPSILON
        · unfold TrackerState.build_behavior_pdf
          rw [if_pos ?_]
          refine ⟨?_, ?_, ?_, h3⟩
          · dsimp only
            rw [sub_self, abs_zero]
            norm_num [EPSILON]
          · dsimp only
            rw [sub_self, abs_zero]
            norm_num
          · dsimp only
            rw [sub_self, abs_zero]
            norm_num
        · unfold TrackerState.build_behavior_pdf
          rw [if_neg (fun hc => h3 hc.2.2.2)]
          dsimp only
          rw [hL]
          dsimp only
          rw [if_neg h2]

/-!  Helper lemmas on the Gaussian kernel and single-sample PDFs. -/

theorem gaussKernel_nonneg (i j : ℤ) : 0 ≤ gaussKernel i j := by
  unfold gaussKernel
  split
  · exact (Real.exp_pos _).le
  · exact le_refl 0

theorem gaussKernel_le_one (i j : ℤ) : gaussKernel i j ≤ 1 := by
  unfold gaussKernel
  split
  · rw [show (1 : ℝ) = Real.exp 0 from Real.exp_zero.symm]
    apply Real.exp_le_exp.mpr
    apply div_nonpos_of_nonpos_of_nonneg
    · have hc : (0 : ℝ) ≤ ((i * i + j * j : ℤ) : ℝ) := by
        exact_mod_cast add_nonneg (mul_self_nonneg i) (mul_self_nonneg j)
      linarith
    · norm_num
  · norm_num

theorem gaussKernel_zero_zero : gaussKernel 0 0 = 1 := by
  unfold gaussKernel
  rw [if_pos (by norm_num)]
  norm_num

theorem gaussKernel_eq_zero (i j : ℤ) (h : 2 < |i| ∨ 2 < |j|) : gaussKernel i j = 0 := by
  unfold gaussKernel
  rw [if_neg]
  rcases h with h | h
  · exact fun hc => absurd hc.1 (not_le.mpr h)
  · exact fun hc => absurd hc.2 (not_le.mpr h)

/-- The sample cell of a PDF for a position equal to its origin is the center
cell (GRID_SIZE / 2, GRID_SIZE / 2). -/
theorem BehaviorPDF.cellOf_origin {n : ℕ} (pdf : BehaviorPDF n) :
    pdf.cellOf pdf.origin = (((n / 2 : ℕ) : ℤ), ((n / 2 : ℕ) : ℤ)) := by
  have hc : cppInt (((n / 2 : ℕ) : ℝ)) = ((n / 2 : ℕ) : ℤ) := by
    unfold cppInt
    rw [if_pos (Nat.cast_nonneg _), Int.floor_natCast]
  unfold BehaviorPDF.cellOf
  rw [sub_self, sub_self, zero_div, zero_add, hc]

theorem pdfRecent_singleton (s : MovementSnapshot) : pdfRecent [s] = [(0, s)] := by
  unfold pdfRecent
  rw [List.reverse_singleton, List.take_of_length_le (by simp)]
  rfl

theorem pdfTotalWeight_singleton (d : ℝ) (s : MovementSnapshot) :
    pdfTotalWeight d [(0, s)] = 1 := by
  simp [pdfTotalWeight]

theorem pdfWeightedSum_singleton (d pt : ℝ) (s : MovementSnapshot) :
    pdfWeightedSum d pt [(0, s)] = s.position + s.velocity * pt := by
  simp [pdfWeightedSum]

theorem pdfSecondPass_singleton {n : ℕ} (d pt : ℝ) (s : MovementSnapshot)
    (pdf : BehaviorPDF n) :
    pdfSecondPass d pt [(0, s)] pdf =
      pdf.add_weighted_sample (s.position + s.velocity * pt) 1 := by
  simp [pdfSecondPass]

/-- The dodge phase is the identity for a zero-velocity latest sample: the
speed gate magnitude > 10 fails. -/
theorem pdfDodgePhase_zero_velocity {n : ℕ} (dodge : DodgePattern) (angles : List ℝ)
    (latest : MovementSnapshot) (pt : ℝ) (pdf2 : BehaviorPDF n)
    (hv : latest.velocity = ⟨0, 0, 0⟩) :
    pdfDodgePhase dodge angles latest pt pdf2 = pdf2 := by
  unfold pdfDodgePhase
  dsimp only
  rw [if_neg]
  intro hc
  have hm : latest.velocity.magnitude = 0 := by
    rw [hv]
    simp
  rw [hm] at hc
  exact absurd hc.1 (by norm_num)

/-- Vector arithmetic: a zero-velocity extrapolation is the position itself. -/
theorem extrapolate_zero_velocity (s : MovementSnapshot)
    (hv : s.velocity = ⟨0, 0, 0⟩) (pt : ℝ) :
    s.position + s.velocity * pt = s.position := by
  rw [hv]
  simp

/-- buildMainPdf over a single-sample history whose sample has zero velocity
coincides with the animation-locked construction: a unit-weight Gaussian
insertion at the sample position, normalized. -/
theorem buildMainPdf_single_zero_velocity (n : ℕ) (dodge : DodgePattern)
    (angles : List ℝ) (s : MovementSnapshot) (pt ms : ℝ)
    (hv : s.velocity = ⟨0, 0, 0⟩) :
    buildMainPdf n [s] dodge angles s pt ms = buildLockedPdf n s pt ms := by
  unfold buildMainPdf buildLockedPdf
  dsimp only
  rw [pdfRecent_singleton, pdfTotalWeight_singleton, pdfWeightedSum_singleton,
    pdfSecondPass_singleton, extrapolate_zero_velocity s hv]
  rw [if_pos (by norm_num [EPSILON])]
  rw [pdfDodgePhase_zero_velocity _ _ _ _ _ hv]
  rw [show s.position / (1 : ℝ) = s.position by
    show Vec3.sdiv s.position 1 = s.position
    unfold Vec3.sdiv
    simp]

/-- build_behavior_pdf on a cache miss over a single-sample, zero-velocity,
non-locked history: the unit-weight Gaussian insertion at the sample
position, normalized, with the tracker state advancing only in its cache. -/
theorem build_single_zero_velocity {n : ℕ} (st : TrackerState n)
    (s : MovementSnapshot) (prediction_time move_speed current_time : ℝ)
    (hmiss : ¬ (|current_time - st.cached_timestamp| < EPSILON ∧
      |prediction_time - st.cached_prediction_time| < 1 / 20 ∧
      |move_speed - st.cached_move_speed| < 20 ∧
      st.cached_pdf.total_probability > EPSILON))
    (hh : st.movement_history = [s])
    (hv : s.velocity = ⟨0, 0, 0⟩)
    (hc : s.is_cced = false) (hcast : s.is_casting = false) :
    (st.build_behavior_pdf prediction_time move_speed current_time).1 =
      buildLockedPdf n s prediction_time move_speed := by
  unfold TrackerState.build_behavior_pdf
  rw [if_neg hmiss, hh]
  rw [show ([s] : List MovementSnapshot).getLast? = some s from rfl]
  dsimp only
  rw [if_neg (by simp [hc, hcast])]
  rw [buildMainPdf_single_zero_velocity n _ _ s prediction_time move_speed hv]

/-- Kernel value a grid cell receives from a unit-weight sample inserted at
the center cell. -/
def kernelCell (n : ℕ) (i j : Fin n) : ℝ :=
  gaussKernel ((i : ℤ) - ((n / 2 : ℕ) : ℤ)) ((j : ℤ) - ((n / 2 : ℕ) : ℤ))

/-- Total kernel mass over the whole grid for a center unit sample. -/
def kernelTotal (n : ℕ) : ℝ := ∑ i : Fin n, ∑ j : Fin n, kernelCell n i j

/-- Kernel mass within Chebyshev distance k of the center cell. -/
def kernelMass (n : ℕ) (k : ℤ) : ℝ :=
  ∑ i : Fin n, ∑ j : Fin n,
    if |(i : ℤ) - ((n / 2 : ℕ) : ℤ)| ≤ k ∧ |(j : ℤ) - ((n / 2 : ℕ) : ℤ)| ≤ k then
      kernelCell n i j else 0

theorem kernelCell_nonneg (n : ℕ) (i j : Fin n) : 0 ≤ kernelCell n i j :=
  gaussKernel_nonneg _ _

theorem kernelTotal_ge_one {n : ℕ} (hn : 0 < n) : 1 ≤ kernelTotal n := by
  have hmem : n / 2 < n := Nat.div_lt_self hn (by norm_num)
  have hcc : kernelCell n ⟨n / 2, hmem⟩ ⟨n / 2, hmem⟩ = 1 := by
    unfold kernelCell
    rw [show (((⟨n / 2, hmem⟩ : Fin n) : ℤ)) - ((n / 2 : ℕ) : ℤ) = 0 by simp]
    exact gaussKernel_zero_zero
  calc (1 : ℝ) = kernelCell n ⟨n / 2, hmem⟩ ⟨n / 2, hmem⟩ := hcc.symm
    _ ≤ ∑ j : Fin n, kernelCell n ⟨n / 2, hmem⟩ j :=
        Finset.single_le_sum (f := fun j => kernelCell n ⟨n / 2, hmem⟩ j)
          (fun j _ => kernelCell_nonneg n _ j) (Finset.mem_univ _)
    _ ≤ kernelTotal n :=
        Finset.single_le_sum (f := fun i => ∑ j : Fin n, kernelCell n i j)
          (fun i _ => Finset.sum_nonneg (fun j _ => kernelCell_nonneg n i j))
          (Finset.mem_univ _)

theorem kernelTotal_ne_zero {n : ℕ} (hn : 0 < n) : kernelTotal n ≠ 0 := by
  have h := kernelTotal_ge_one hn
  intro hz
  rw [hz] at h
  linarith

/-- The freshly sized empty PDF build_behavior_pdf starts from: given origin
and cell size, all cells zero. -/
def basePdf (n : ℕ) (pos : Vec3) (cs : ℝ) : BehaviorPDF n :=
  { origin := pos, cell_size := cs, grid := fun _ _ => 0, total_probability := 0 }

/-- buildLockedPdf unfolded through basePdf. -/
theorem buildLockedPdf_eq (n : ℕ) (s : MovementSnapshot) (pt ms : ℝ) :
    buildLockedPdf n s pt ms =
      ((basePdf n s.position (pdfCellSize n pt ms)).add_weighted_sample
        s.position 1).normalize := rfl

/-- The cell of a position equal to the origin of the PDF is the center cell. -/
theorem BehaviorPDF.cellOf_eq_of_origin {n : ℕ} (pdf : BehaviorPDF n) (pos : Vec3)
    (h : pdf.origin = pos) :
    pdf.cellOf pos = (((n / 2 : ℕ) : ℤ), ((n / 2 : ℕ) : ℤ)) := by
  rw [← h]
  exact pdf.cellOf_origin

/-- Grid of the unit center insertion into the empty base PDF: exactly the
kernel values around the center cell. -/
theorem basePdf_insert_grid (n : ℕ) (pos : Vec3) (cs : ℝ) (gx gz : Fin n) :
    ((basePdf n pos cs).add_weighted_sample pos 1).grid gx gz = kernelCell n gx gz := by
  unfold BehaviorPDF.add_weighted_sample
  dsimp only
  rw [BehaviorPDF.cellOf_eq_of_origin (basePdf n pos cs) pos rfl]
  show (0 : ℝ) + 1 * gaussKernel _ _ = _
  rw [zero_add, one_mul]
  rfl

theorem basePdf_insert_gridSum (n : ℕ) (pos : Vec3) (cs : ℝ) :
    ((basePdf n pos cs).add_weighted_sample pos 1).gridSum = kernelTotal n := by
  unfold BehaviorPDF.gridSum kernelTotal
  exact Finset.sum_congr rfl (fun i _ => Finset.sum_congr rfl
    (fun j _ => basePdf_insert_grid n pos cs i j))

theorem basePdf_insert_gridSum_pos {n : ℕ} (hn : 0 < n) (pos : Vec3) (cs : ℝ) :
    EPSILON < ((basePdf n pos cs).add_weighted_sample pos 1).gridSum := by
  rw [basePdf_insert_gridSum]
  calc EPSILON < 1 := by norm_num [EPSILON]
    _ ≤ kernelTotal n := kernelTotal_ge_one hn

/-- massWithin of a normalized PDF above the guard: the unnormalized partial
mass times the reciprocal of the cell sum. -/
theorem BehaviorPDF.massWithin_normalize_of_pos {n : ℕ} (pdf : BehaviorPDF n)
    (pos : Vec3) (k : ℤ) (h : EPSILON < pdf.gridSum) :
    pdf.normalize.massWithin pos k =
      (∑ i : Fin n, ∑ j : Fin n,
        if |(i : ℤ) - (pdf.cellOf pos).1| ≤ k ∧ |(j : ℤ) - (pdf.cellOf pos).2| ≤ k then
          pdf.grid i j else 0) * (1 / pdf.gridSum) := by
  rw [BehaviorPDF.normalize_of_pos pdf h]
  unfold BehaviorPDF.massWithin
  dsimp only
  rw [show ({ pdf with
      grid := fun i j => pdf.grid i j * (1 / pdf.gridSum)
      total_probability := 1 } : BehaviorPDF n).cellOf pos = pdf.cellOf pos from rfl]
  rw [Finset.sum_congr rfl (fun i _ => Finset.sum_congr rfl (fun j _ => by
    show (if |(i : ℤ) - (pdf.cellOf pos).1| ≤ k ∧ |(j : ℤ) - (pdf.cellOf pos).2| ≤ k then
        pdf.grid i j * (1 / pdf.gridSum) else 0) =
      (if |(i : ℤ) - (pdf.cellOf pos).1| ≤ k ∧ |(j : ℤ) - (pdf.cellOf pos).2| ≤ k then
        pdf.grid i j else 0) * (1 / pdf.gridSum)
    split
    · rfl
    · rw [zero_mul]))]
  simp only [← Finset.sum_mul]

/-- Full evaluation of the animation-locked single-sample PDF: its total
probability is 1, and its mass within Chebyshev distance k of the sample cell
is the corresponding kernel-mass ratio. -/
theorem buildLockedPdf_eval {n : ℕ} (hn : 0 < n) (s : MovementSnapshot) (pt ms : ℝ) :
    (buildLockedPdf n s pt ms).total_probability = 1 ∧
    ∀ k : ℤ, (buildLockedPdf n s pt ms).massWithin s.position k =
      kernelMass n k * (1 / kernelTotal n) := by
  rw [buildLockedPdf_eq]
  have hpos := basePdf_insert_gridSum_pos hn s.position (pdfCellSize n pt ms)
  constructor
  · rw [BehaviorPDF.normalize_of_pos _ hpos]
  · intro k
    rw [BehaviorPDF.massWithin_normalize_of_pos _ _ _ hpos]
    rw [show ((basePdf n s.position (pdfCellSize n pt ms)).add_weighted_sample
        s.position 1).cellOf s.position = (((n / 2 : ℕ) : ℤ), ((n / 2 : ℕ) : ℤ)) from
      BehaviorPDF.cellOf_eq_of_origin
        ((basePdf n s.position (pdfCellSize n pt ms)).add_weighted_sample s.position 1)
        s.position rfl]
    rw [basePdf_insert_gridSum]
    congr 1
    unfold kernelMass
    exact Finset.sum_congr rfl (fun i _ => Finset.sum_congr rfl (fun j _ => by
      rw [basePdf_insert_grid]))

/-- For Chebyshev distance at least the kernel radius 2, the kernel mass is
the whole kernel total: every cell the kernel touches is within two cells. -/
theorem kernelMass_of_two_le {n : ℕ} (k : ℤ) (hk : 2 ≤ k) :
    kernelMass n k = kernelTotal n := by
  unfold kernelMass kernelTotal
  refine Finset.sum_congr rfl (fun i _ => Finset.sum_congr rfl (fun j _ => ?_))
  split
  · rfl
  · rename_i hcond
    unfold kernelCell
    rcases not_and_or.mp hcond with h | h
    · exact (gaussKernel_eq_zero _ _ (Or.inl (lt_of_le_of_lt hk (not_le.mp h)))).symm
    · exact (gaussKernel_eq_zero _ _ (Or.inr (lt_of_le_of_lt hk (not_le.mp h)))).symm

/-- C3 amended: a BehaviorPDF built (on a cache miss) from a single
zero-velocity, non-locked sample is normalized (total probability 1) and
places ALL of its probability mass within TWO grid cells (the Gaussian kernel
radius) of the sample position, for every admissible grid size. -/
theorem c3_amended {n : ℕ} (hn : 0 < n) (st : TrackerState n) (s : MovementSnapshot)
    (prediction_time move_speed current_time : ℝ)
    (hmiss : ¬ (|current_time - st.cached_timestamp| < EPSILON ∧
      |prediction_time - st.cached_prediction_time| < 1 / 20 ∧
      |move_speed - st.cached_move_speed| < 20 ∧
      st.cached_pdf.total_probability > EPSILON))
    (hh : st.movement_history = [s])
    (hv : s.velocity = ⟨0, 0, 0⟩)
    (hc : s.is_cced = false) (hcast : s.is_casting = false) :
    (st.build_behavior_pdf prediction_time move_speed current_time).1.total_probability
      = 1 ∧
    (st.build_behavior_pdf prediction_time move_speed current_time).1.massWithin
      s.position 2 = 1 := by
  rw [build_single_zero_velocity st s prediction_time move_speed current_time
    hmiss hh hv hc hcast]
  obtain ⟨ht, hm⟩ := buildLockedPdf_eval hn s prediction_time move_speed
  refine ⟨ht, ?_⟩
  rw [hm 2, kernelMass_of_two_le 2 le_rfl, mul_one_div,
    div_self (kernelTotal_ne_zero hn)]

/-- A dodge pattern with no learned data (fresh tracker defaults). -/
def zeroDodge : DodgePattern := ⟨0, 0, 200, 0, 0, false, 0, ⟨0, 0, 0⟩⟩

/-- A single stationary, unflagged movement sample at the origin. -/
def c3Sample : MovementSnapshot :=
  ⟨⟨0, 0, 0⟩, 0, ⟨0, 0, 0⟩, false, false, false, false, 100⟩

/-- A fresh tracker (invalid cache) whose history is exactly the one
stationary sample, on an 8 by 8 grid. -/
def c3State : TrackerState 8 :=
  ⟨[c3Sample], zeroDodge, [], BehaviorPDF.default 8, -1, -1, -1, false, 0⟩

/-- Witness for the amended C3 at the concrete single-sample state. -/
theorem c3_amended_witness :
    (c3State.build_behavior_pdf (1 / 2) 300 0).1.total_probability = 1 ∧
    (c3State.build_behavior_pdf (1 / 2) 300 0).1.massWithin c3Sample.position 2 = 1 :=
  c3_amended (by norm_num) c3State c3Sample (1 / 2) 300 0
    (by
      intro hcon
      have h := hcon.1
      norm_num [c3State, EPSILON] at h)
    rfl rfl rfl rfl

theorem kernelMass_nonneg (n : ℕ) (k : ℤ) : 0 ≤ kernelMass n k := by
  unfold kernelMass
  refine Finset.sum_nonneg (fun i _ => Finset.sum_nonneg (fun j _ => ?_))
  split
  · exact kernelCell_nonneg n i j
  · exact le_refl 0

/-- At grid size 8, at most the nine cells of the 3 by 3 center block carry
within-one-cell mass, each at most 1. -/
theorem kernelMass_eight_one_le_nine : kernelMass 8 1 ≤ 9 := by
  unfold kernelMass
  have step : ∀ i j : Fin 8,
      (if |(i : ℤ) - ((8 / 2 : ℕ) : ℤ)| ≤ 1 ∧ |(j : ℤ) - ((8 / 2 : ℕ) : ℤ)| ≤ 1 then
        kernelCell 8 i j else 0) ≤
      (if |(i : ℤ) - ((8 / 2 : ℕ) : ℤ)| ≤ 1 then (1 : ℝ) else 0) *
        (if |(j : ℤ) - ((8 / 2 : ℕ) : ℤ)| ≤ 1 then (1 : ℝ) else 0) := by
    intro i j
    by_cases h1 : |(i : ℤ) - ((8 / 2 : ℕ) : ℤ)| ≤ 1 <;>
      by_cases h2 : |(j : ℤ) - ((8 / 2 : ℕ) : ℤ)| ≤ 1
    · rw [if_pos ⟨h1, h2⟩, if_pos h1, if_pos h2, one_mul]
      exact gaussKernel_le_one _ _
    · rw [if_neg (fun hc => h2 hc.2), if_pos h1, if_neg h2, one_mul]
    · rw [if_neg (fun hc => h1 hc.1), if_neg h1, if_pos h2, zero_mul]
    · rw [if_neg (fun hc => h1 hc.1), if_neg h1, if_neg h2, zero_mul]
  calc (∑ i : Fin 8, ∑ j : Fin 8,
        if |(i : ℤ) - ((8 / 2 : ℕ) : ℤ)| ≤ 1 ∧ |(j : ℤ) - ((8 / 2 : ℕ) : ℤ)| ≤ 1 then
          kernelCell 8 i j else 0)
      ≤ ∑ i : Fin 8, ∑ j : Fin 8,
          (if |(i : ℤ) - ((8 / 2 : ℕ) : ℤ)| ≤ 1 then (1 : ℝ) else 0) *
            (if |(j : ℤ) - ((8 / 2 : ℕ) : ℤ)| ≤ 1 then (1 : ℝ) else 0) :=
        Finset.sum_le_sum (fun i _ => Finset.sum_le_sum (fun j _ => step i j))
    _ = (∑ i : Fin 8, if |(i : ℤ) - ((8 / 2 : ℕ) : ℤ)| ≤ 1 then (1 : ℝ) else 0) *
          (∑ j : Fin 8, if |(j : ℤ) - ((8 / 2 : ℕ) : ℤ)| ≤ 1 then (1 : ℝ) else 0) :=
        (Finset.sum_mul_sum _ _ _ _).symm
    _ ≤ 9 := by
        rw [Finset.sum_boole]
        rw [show (Finset.univ.filter
            (fun i : Fin 8 => |(i : ℤ) - ((8 / 2 : ℕ) : ℤ)| ≤ 1)).card = 3 from by decide]
        norm_num

/-- Splitting the kernel total into the within-k mass and the remainder. -/
theorem kernelTotal_split (n : ℕ) (k : ℤ) :
    kernelTotal n = kernelMass n k + ∑ i : Fin n, ∑ j : Fin n,
      (if |(i : ℤ) - ((n / 2 : ℕ) : ℤ)| ≤ k ∧ |(j : ℤ) - ((n / 2 : ℕ) : ℤ)| ≤ k then 0
       else kernelCell n i j) := by
  unfold kernelTotal kernelMass
  rw [← Finset.sum_add_distrib]
  refine Finset.sum_congr rfl (fun i _ => ?_)
  rw [← Finset.sum_add_distrib]
  refine Finset.sum_congr rfl (fun j _ => ?_)
  split
  · rw [add_zero]
  · rw [zero_add]

/-- exp(-8/9) is at least one third (since e is under 3). -/
theorem exp_neg_eight_ninths_ge : (1 / 3 : ℝ) ≤ Real.exp (-(8 / 9)) := by
  have h1 : Real.exp (-1) ≤ Real.exp (-(8 / 9)) := Real.exp_le_exp.mpr (by norm_num)
  have h2 : Real.exp 1 < 3 := lt_trans Real.exp_one_lt_d9 (by norm_num)
  have h3 : (1 / 3 : ℝ) < Real.exp (-1) := by
    rw [Real.exp_neg, show (1 / 3 : ℝ) = 3⁻¹ by norm_num]
    exact inv_strictAnti₀ (Real.exp_pos 1) h2
  linarith

/-- At grid size 8, the four cells at Chebyshev distance exactly 2 along the
axes alone carry kernel mass 4 exp(-8/9), at least 4/3: mass escapes the 3 by
3 center block. -/
theorem kernelRest_eight_ge : (4 / 3 : ℝ) ≤ ∑ i : Fin 8, ∑ j : Fin 8,
    (if |(i : ℤ) - ((8 / 2 : ℕ) : ℤ)| ≤ 1 ∧ |(j : ℤ) - ((8 / 2 : ℕ) : ℤ)| ≤ 1 then 0
     else kernelCell 8 i j) := by
  rw [← Finset.sum_product']
  have hnn : ∀ p ∈ Finset.univ ×ˢ (Finset.univ : Finset (Fin 8)),
      p ∉ ({((2 : Fin 8), (4 : Fin 8)), (6, 4), (4, 2), (4, 6)} :
        Finset (Fin 8 × Fin 8)) →
      0 ≤ (if |(p.1 : ℤ) - ((8 / 2 : ℕ) : ℤ)| ≤ 1 ∧ |(p.2 : ℤ) - ((8 / 2 : ℕ) : ℤ)| ≤ 1
        then (0 : ℝ) else kernelCell 8 p.1 p.2) := by
    intro p _ _
    split
    · exact le_refl 0
    · exact kernelCell_nonneg 8 p.1 p.2
  have hsub : ({((2 : Fin 8), (4 : Fin 8)), (6, 4), (4, 2), (4, 6)} :
      Finset (Fin 8 × Fin 8)) ⊆ Finset.univ ×ˢ Finset.univ := by
    intro p _
    simp [Finset.mem_product]
  refine le_trans ?_ (Finset.sum_le_sum_of_subset_of_nonneg hsub hnn)
  have hval : ∀ a b : Fin 8, ¬ (|(a : ℤ) - ((8 / 2 : ℕ) : ℤ)| ≤ 1 ∧
        |(b : ℤ) - ((8 / 2 : ℕ) : ℤ)| ≤ 1) →
      |(a : ℤ) - ((8 / 2 : ℕ) : ℤ)| ≤ 2 → |(b : ℤ) - ((8 / 2 : ℕ) : ℤ)| ≤ 2 →
      ((a : ℤ) - ((8 / 2 : ℕ) : ℤ)) * ((a : ℤ) - ((8 / 2 : ℕ) : ℤ)) +
        ((b : ℤ) - ((8 / 2 : ℕ) : ℤ)) * ((b : ℤ) - ((8 / 2 : ℕ) : ℤ)) = 4 →
      (if |(a : ℤ) - ((8 / 2 : ℕ) : ℤ)| ≤ 1 ∧ |(b : ℤ) - ((8 / 2 : ℕ) : ℤ)| ≤ 1
        then (0 : ℝ) else kernelCell 8 a b) = Real.exp (-(8 / 9)) := by
    intro a b hcond ha hb hsq
    rw [if_neg hcond]
    unfold kernelCell gaussKernel
    rw [if_pos ⟨ha, hb⟩, hsq]
    norm_num
  rw [Finset.sum_insert (by decide), Finset.sum_insert (by decide),
    Finset.sum_insert (by decide), Finset.sum_singleton]
  rw [hval 2 4 (by decide) (by decide) (by decide) (by decide),
    hval 6 4 (by decide) (by decide) (by decide) (by decide),
    hval 4 2 (by decide) (by decide) (by decide) (by decide),
    hval 4 6 (by decide) (by decide) (by decide) (by decide)]
  have := exp_neg_eight_ninths_ge
  linarith

/-- At grid size 8 the normalized mass within one grid cell of the center is
under 19/20: far from approximately all of the mass. -/
theorem kernelRatio_eight_lt : kernelMass 8 1 * (1 / kernelTotal 8) < 19 / 20 := by
  have h9 := kernelMass_eight_one_le_nine
  have h0 := kernelMass_nonneg 8 1
  have hrest := kernelRest_eight_ge
  have hsplit := kernelTotal_split 8 1
  have hT : kernelMass 8 1 + 4 / 3 ≤ kernelTotal 8 := by
    rw [hsplit]
    linarith
  have hTpos : 0 < kernelTotal 8 := by linarith
  rw [mul_one_div, div_lt_iff₀ hTpos]
  linarith

/-- Counterexample for C3 as stated: the PDF built from a single
zero-velocity sample is fully normalized (total probability 1) yet places
less than 95 percent of its mass within one grid cell of the sample position
(about 58 percent in fact): the sigma = 1.5 Gaussian kernel spreads mass over
a two-cell radius, so "approximately all within one grid cell" fails. -/
theorem c3_counterexample :
    (c3State.build_behavior_pdf (1 / 2) 300 0).1.total_probability = 1 ∧
    (c3State.build_behavior_pdf (1 / 2) 300 0).1.massWithin c3Sample.position 1
      < 19 / 20 := by
  rw [build_single_zero_velocity c3State c3Sample (1 / 2) 300 0
    (by
      intro hcon
      have h := hcon.1
      norm_num [c3State, EPSILON] at h)
    rfl rfl rfl rfl]
  obtain ⟨ht, hm⟩ := buildLockedPdf_eval (n := 8) (by norm_num) c3Sample (1 / 2) 300
  refine ⟨ht, ?_⟩
  rw [hm 1]
  exact kernelRatio_eight_lt

/-- The dodge phase is the identity when the target could not have reacted
yet: prediction_time below the learned reaction delay. -/
theorem pdfDodgePhase_no_react {n : ℕ} (dodge : DodgePattern) (angles : List ℝ)
    (latest : MovementSnapshot) (pt : ℝ) (pdf2 : BehaviorPDF n)
    (h : ¬ pt ≥ dodge.reaction_delay / 1000) :
    pdfDodgePhase dodge angles latest pt pdf2 = pdf2 := by
  unfold pdfDodgePhase
  dsimp only
  rw [if_neg (fun hc => h hc.2)]

/-- C4 amended: the bypass of build_behavior_pdf is keyed on hard crowd
control or casting ONLY: whenever the latest sample is CC'd or casting (and
the per-tick cache does not hit), the method returns the single-unit-mass PDF
at the current position; a latest sample that is merely auto-attacking (which
is_animation_locked also reports) takes the full extrapolation path. -/
theorem c4_amended {n : ℕ} (st : TrackerState n) (latest : MovementSnapshot)
    (prediction_time move_speed current_time : ℝ)
    (hmiss : ¬ (|current_time - st.cached_timestamp| < EPSILON ∧
      |prediction_time - st.cached_prediction_time| < 1 / 20 ∧
      |move_speed - st.cached_move_speed| < 20 ∧
      st.cached_pdf.total_probability > EPSILON))
    (hlast : st.movement_history.getLast? = some latest)
    (hlock : latest.is_cced = true ∨ latest.is_casting = true) :
    (st.build_behavior_pdf prediction_time move_speed current_time).1 =
      buildLockedPdf n latest prediction_time move_speed ∧
    (st.build_behavior_pdf prediction_time move_speed current_time).1.origin =
      latest.position := by
  have heq : (st.build_behavior_pdf prediction_time move_speed current_time).1 =
      buildLockedPdf n latest prediction_time move_speed := by
    unfold TrackerState.build_behavior_pdf
    rw [if_neg hmiss, hlast]
    dsimp only
    rw [if_pos hlock]
  refine ⟨heq, ?_⟩
  rw [heq, buildLockedPdf_eq]
  simp [basePdf]

/-- A casting, zero-velocity sample away from the origin. -/
def c4wSample : MovementSnapshot :=
  ⟨⟨5, 0, 7⟩, 0, ⟨0, 0, 0⟩, false, true, false, false, 100⟩

/-- A fresh tracker whose latest (only) sample is casting. -/
def c4wState : TrackerState 4 :=
  ⟨[c4wSample], zeroDodge, [], BehaviorPDF.default 4, -1, -1, -1, false, 0⟩

/-- Witness for the amended C4: a casting sample takes the bypass. -/
theorem c4_amended_witness :
    (c4wState.build_behavior_pdf 1 300 0).1 = buildLockedPdf 4 c4wSample 1 300 ∧
    (c4wState.build_behavior_pdf 1 300 0).1.origin = c4wSample.position :=
  c4_amended c4wState c4wSample 1 300 0
    (by
      intro hcon
      have h := hcon.1
      norm_num [c4wState, EPSILON] at h)
    rfl (Or.inr rfl)

/-- A moving, auto-attacking (not CC'd, not casting) sample. -/
def c4Sample : MovementSnapshot :=
  ⟨⟨0, 0, 0⟩, 0, ⟨300, 0, 400⟩, true, false, false, false, 100⟩

/-- A dodge pattern whose learned reaction delay is 2000 ms. -/
def c4Dodge : DodgePattern := ⟨0, 0, 2000, 0, 0, false, 0, ⟨0, 0, 0⟩⟩

/-- A fresh tracker whose latest (only) sample is auto-attacking while
moving. -/
def c4State : TrackerState 8 :=
  ⟨[c4Sample], c4Dodge, [], BehaviorPDF.default 8, -1, -1, -1, false, 0⟩

/-- Counterexample for C4 as stated: the latest sample is animation-locked
(auto-attacking), yet build_behavior_pdf does NOT return the single unit
mass at the current position: the bypass tests only is_cced and is_casting,
so the auto-attacking sample takes the extrapolation path and the returned
PDF is centered at the extrapolated position (300, 0, 400), not at the
current position (0, 0, 0). -/
theorem c4_counterexample :
    c4State.is_animation_locked = true ∧
    (c4State.build_behavior_pdf 1 300 0).1 ≠ buildLockedPdf 8 c4Sample 1 300 := by
  refine ⟨rfl, ?_⟩
  have hmain : (c4State.build_behavior_pdf 1 300 0).1 =
      buildMainPdf 8 [c4Sample] c4Dodge [] c4Sample 1 300 := by
    unfold TrackerState.build_behavior_pdf
    rw [if_neg (by
      intro hcon
      have h := hcon.1
      norm_num [c4State, EPSILON] at h)]
    rw [show c4State.movement_history.getLast? = some c4Sample from rfl]
    dsimp only
    rw [if_neg (by simp [c4Sample])]
    rfl
  have horig : (buildMainPdf 8 [c4Sample] c4Dodge [] c4Sample 1 300).origin =
      ⟨300, 0, 400⟩ := by
    unfold buildMainPdf
    dsimp only
    rw [pdfRecent_singleton, pdfTotalWeight_singleton, pdfWeightedSum_singleton,
      pdfSecondPass_singleton]
    rw [pdfDodgePhase_no_react _ _ _ _ _ (by norm_num [c4Dodge])]
    rw [BehaviorPDF.origin_normalize, BehaviorPDF.origin_add_weighted_sample]
    dsimp only
    rw [if_pos (by norm_num [EPSILON])]
    show ((c4Sample.position + c4Sample.velocity * 1) / (1 : ℝ)) = _
    norm_num [c4Sample]
  intro heq
  rw [hmain] at heq
  have hlocked : (buildLockedPdf 8 c4Sample 1 300).origin = c4Sample.position := by
    rw [buildLockedPdf_eq]
    simp [basePdf]
  have hcontra := congrArg BehaviorPDF.origin heq
  rw [horig, hlocked] at hcontra
  norm_num [c4Sample] at hcontra

end

end HybridPred
